import Mathlib

/-!
Verification of the interaction-log replay engine of the OnlyOffice SQL
plugin test harness (`src/interaction_log_executor.py` and
`src/interaction_log_executor_simple.py`).

The Python code is shallowly embedded:

* Python strings are Lean `String`s; `str.strip` / `str.lower` /
  `str.startswith` / `str.replace` and friends are modelled over the
  underlying character list (`pyStrip`, `pyLower`, ...).  Python's
  truthiness on `Optional[str]` values (`if not step.test_id: ...`) is
  `pyTruthyStr`, which maps `None` and `""` to `none`.
* JSON values decoded by `json.loads` are the inductive `JVal`; nested
  arrays and objects are abstracted to their emptiness, which is all the
  executor can observe of them (truthiness and `isinstance` checks).
* The Selenium driver and the page objects are collaborators reached
  through an `Env` of oracles (element liveness, locator lookup,
  `closest('.query-card')`, reflective no-arg method calls, ...).  A
  collaborator call performed by the executor is recorded in an action
  trace (`Act`); the executor's mutable state (its `_active_card` slot and
  the mirrored `sql_manager_page.card` slot) is `ExecState`.
* A Python function that can raise returns, besides its trace and the
  state it leaves behind, an `Option Err` (`some e` = the exception `e`
  was raised after the recorded effects happened).
-/

namespace Replay

/-! ## Python string primitives -/

/-- Python `str.lower()` (basic-latin case folding, like `Char.toLower`). -/
def pyLower (s : String) : String := ⟨s.data.map Char.toLower⟩

/-- Python `str.strip()`: drop whitespace from both ends. -/
def pyStrip (s : String) : String :=
  ⟨List.rdropWhile Char.isWhitespace (s.data.dropWhile Char.isWhitespace)⟩

/-- Python `s.startswith(p)`. -/
def pyStartsWith (s p : String) : Bool := p.data.isPrefixOf s.data

/-- Python `s.endswith(p)`. -/
def pyEndsWith (s p : String) : Bool := decide (p.data <:+ s.data)

/-- Python `needle in hay` (substring containment). -/
def pyContains (hay needle : String) : Bool := decide (needle.data <:+: hay.data)

/-- Python `s.replace(c, r)` for a one-character pattern `c`. -/
def replaceChar (c : Char) (r : List Char) : List Char → List Char
  | [] => []
  | d :: ds => (if d = c then r else [d]) ++ replaceChar c r ds

/-- Python `s.replace(old, new)` specialised to a one-character `old`. -/
def pyReplaceChar (s : String) (c : Char) (r : String) : String :=
  ⟨replaceChar c r.data s.data⟩

/-- Python `s.lstrip(t)` for a one-character `t`: drop every leading `c`. -/
def pyLstripChar (s : String) (c : Char) : String :=
  ⟨s.data.dropWhile (· = c)⟩

/-- Python truthiness of an `Optional[str]`: `None` and `""` are falsy.
`pyTruthyStr o = some s` exactly when the Python value is a truthy string
`s`. -/
def pyTruthyStr : Option String → Option String
  | none => none
  | some s => if s = "" then none else some s

/-- Python `s[n:]`. -/
def strDrop (s : String) (n : Nat) : String := ⟨s.data.drop n⟩

/-- Python `s.replace("-", "_")`. -/
def dashToUnderscore (s : String) : String :=
  ⟨s.data.map (fun c => if c = '-' then '_' else c)⟩

/-! ## JSON values and the raw record (`json.loads` output)

`json.loads` yields `None`, booleans, numbers, strings, lists and dicts.
The executor inspects a decoded value only through `isinstance(raw, dict)`
at the top level, truthiness, and string methods, so nested containers are
abstracted to their emptiness. JSON `null` and an absent key are both
Python `None`; both are `jnull` here. -/

inductive JVal where
  | jnull
  | jbool (b : Bool)
  | jnum (n : Int)
  | jstr (s : String)
  | jarr (nonempty : Bool)
  | jobj (nonempty : Bool)
deriving DecidableEq, Repr

/-- A decoded JSON object: the dict `json.loads` returns for a log line. -/
abbrev RawRecord := List (String × JVal)

/-- A decoded JSON document: a dict, or any other top-level value. -/
inductive PyJson where
  | obj (fields : RawRecord)
  | other (v : JVal)
deriving DecidableEq, Repr

/-- Python truthiness of a decoded JSON value. -/
def JVal.truthy : JVal → Bool
  | .jnull => false
  | .jbool b => b
  | .jnum n => n != 0
  | .jstr s => s != ""
  | .jarr ne => ne
  | .jobj ne => ne

/-- Python `raw.get(k)`: `None` for an absent key (and for JSON `null`). -/
def pyGet (raw : RawRecord) (k : String) : JVal :=
  match raw.lookup k with
  | none => .jnull
  | some v => v

/-- Python `raw.get(k) or ""`. -/
def pyGetOrEmpty (raw : RawRecord) (k : String) : JVal :=
  if (pyGet raw k).truthy then pyGet raw k else .jstr ""

/-- Python `(raw.get(k) or "").strip().lower()`: `none` models the
`AttributeError` raised when the value is a truthy non-string. -/
def normField (raw : RawRecord) (k : String) : Option String :=
  match pyGetOrEmpty raw k with
  | .jstr s => some (pyLower (pyStrip s))
  | _ => none

/-! ## Step model: `InteractionStep.from_raw` and `read_interaction_log` -/

/-- The parsed step produced by `InteractionStep.from_raw`: `event` and
`action` are normalised strings, every other promoted field is stored
exactly as found in the raw mapping, and the raw mapping itself is kept. -/
structure ParsedStep where
  index : Nat
  seq : JVal
  page : JVal
  url : JVal
  path : JVal
  event : String
  action : String
  key : JVal
  testId : JVal
  selector : JVal
  tag : JVal
  elementId : JVal
  name : JVal
  role : JVal
  text : JVal
  value : JVal
  queryKey : JVal
  connectionName : JVal
  raw : RawRecord
deriving DecidableEq, Repr

/-- `InteractionStep.from_raw(raw, index)`. Returns `none` when Python
raises (`.strip()` on a truthy non-string `event`/`action` value). -/
def from_raw (raw : RawRecord) (index : Nat) : Option ParsedStep :=
  match normField raw "event", normField raw "action" with
  | some ev, some ac =>
    some {
      index := index
      seq := pyGet raw "seq"
      page := pyGet raw "page"
      url := pyGet raw "url"
      path := pyGet raw "path"
      event := ev
      action := ac
      key := pyGet raw "key"
      testId := pyGet raw "testId"
      selector := pyGet raw "selector"
      tag := pyGet raw "tag"
      elementId := pyGet raw "id"
      name := pyGet raw "name"
      role := pyGet raw "role"
      text := pyGet raw "text"
      value := pyGet raw "value"
      queryKey := pyGet raw "queryKey"
      connectionName := pyGet raw "connectionName"
      raw := raw }
  | _, _ => none

/-- Errors `read_interaction_log` can raise. `invalidJson` and `nonObject`
are the two `ValueError`s (the spec's `MalformedRecordError`), `notFound`
is `FileNotFoundError`, and `attrError` is the uncaught `AttributeError`
propagating out of `InteractionStep.from_raw`. -/
inductive ReadError where
  | notFound
  | invalidJson (line : Nat)
  | nonObject (line : Nat)
  | attrError (line : Nat)
deriving DecidableEq, Repr

/-- The loop body of `read_interaction_log`, over the numbered lines of the
file. `jsonLoads` is the external `json.loads` (`none` =
`json.JSONDecodeError`). -/
def readLines (jsonLoads : String → Option PyJson) :
    List String → Nat → Except ReadError (List ParsedStep)
  | [], _ => .ok []
  | line :: rest, n =>
    let payload := pyStrip line
    if payload = "" then readLines jsonLoads rest (n + 1)
    else
      match jsonLoads payload with
      | none => .error (.invalidJson n)
      | some (.other _) => .error (.nonObject n)
      | some (.obj raw) =>
        match from_raw raw n with
        | none => .error (.attrError n)
        | some step => (readLines jsonLoads rest (n + 1)).map (step :: ·)

/-- `read_interaction_log(log_path)`: the file is `none` when the path
does not exist, otherwise the list of its decoded lines. -/
def read_interaction_log (jsonLoads : String → Option PyJson)
    (file : Option (List String)) : Except ReadError (List ParsedStep) :=
  match file with
  | none => .error .notFound
  | some lines => readLines jsonLoads lines 1

/-! ## The executor's step view

The executor code reads the promoted fields through the dataclass, whose
annotations declare them `str | None` (and `seq: int | None`). Replay-level
claims quantify over steps of this typed shape; `rawQueryName` stands for
the raw mapping's `"queryName"` entry, the only raw field the executor
reads (`step.raw.get("queryName")` in `_resolve_card`). -/

structure InteractionStep where
  index : Nat
  seq : Option Int
  event : String
  action : String
  key : Option String
  testId : Option String
  selector : Option String
  tag : Option String
  elementId : Option String
  name : Option String
  role : Option String
  text : Option String
  value : Option String
  queryKey : Option String
  connectionName : Option String
  rawQueryName : Option String
deriving DecidableEq, Repr

/-- Selenium locator strategies the executor uses. -/
inductive By where
  | cssSelector
  | id
deriving DecidableEq, Repr

/-- A locator tuple `(By.X, selector)`. -/
abbrev Locator := By × String

/-- Abstract handles for live UI elements. -/
abbrev Elem := Nat

/-- One collaborator call performed by the executor (a page-object method,
a Selenium action, or a JS injection). `pageOp` names a no-argument
page-object method by its dotted Python name. -/
inductive Act where
  | pageOp (method : String)
  | reflectCall (page : String) (method : String)
  | selectConnection (name : String)
  | selectExportDestination (text : String)
  | enterQueryName (v : String)
  | setQueryText (v : String)
  | clickLocator (loc : Locator)
  | jsClick (e : Elem)
  | clearSendKeys (e : Elem) (v : String)
  | selectByValue (e : Elem) (v : String)
  | selectByText (e : Elem) (v : String)
  | jsAssignValue (e : Elem) (v : String)
  | dispatchChange (e : Elem)
  | jsSetValue (e : Elem) (v : String)
  | jsSetCodemirror (e : Elem) (v : String)
deriving DecidableEq, Repr

/-- Exceptions the embedded executor logic can raise.
`noSuchElement` is `NoSuchElementException` for an unresolvable locator
(the spec's `NoSuchElementError`); `exportSelectNotFound` is the
`NoSuchElementException("Export destination select not found")`;
`cannotResolveCard` is the `RuntimeError` of `_resolve_card` (the spec's
`ContextNotFoundError`); `noHandler` is the `RuntimeError` of
`_handle_unmapped_action` (the spec's `NoHandlerError`);
`codemirrorNotApplied` is the `RuntimeError` of `_set_codemirror_generic`;
`codemirrorNoValue` is the `RuntimeError` of the simple executor's
`_set_query_text_from_step`. -/
inductive Err where
  | noSuchElement (line : Nat)
  | exportSelectNotFound
  | cannotResolveCard (line : Nat)
  | noHandler (line : Nat) (event : String) (action : String)
  | codemirrorNotApplied (line : Nat)
  | codemirrorNoValue (line : Nat)
deriving DecidableEq, Repr

/-- The executor's mutable context: `InteractionLogExecutor._active_card`
and the collaborator's mirrored slot `sql_manager_page.card`. -/
structure ExecState where
  activeCard : Option Elem
  pageCard : Option Elem
deriving DecidableEq, Repr

/-- The oracles standing for the Selenium driver and the page objects:

* `alive e` — a trivial property read on `e` succeeds
  (`_element_is_alive`);
* `findLoc` — `driver.find_element_in_frames` (`none` = not found);
* `closestQueryCard e` — the JS `e.closest('.query-card')`;
* `expandCard qn cn` — `sql_manager_page.expand_query_card` (`none` models
  both a falsy result and a raised error, which `_resolve_card` swallows);
* `callNoargPlugin` / `callNoargSqlMode` — whether `_call_noarg` finds and
  successfully calls the derived method on `plugin_page` / `sql_mode_page`;
* `findChildByTestid e t` — `_find_child_by_testid` (`none` = raises);
* `tagName e` — `element.tag_name or ""`;
* `selectByValueOk` / `selectByTextOk` — whether the two
  `selenium.Select` strategies succeed;
* `codemirrorApply e` — whether the injected CodeMirror script returns
  a truthy `applied`. -/
structure Env where
  alive : Elem → Bool
  findLoc : Locator → Option Elem
  closestQueryCard : Elem → Option Elem
  expandCard : Option String → Option String → Option Elem
  callNoargPlugin : String → Bool
  callNoargSqlMode : String → Bool
  findChildByTestid : Elem → String → Option Elem
  tagName : Elem → String
  selectByValueOk : Elem → String → Bool
  selectByTextOk : Elem → String → Bool
  codemirrorApply : Elem → Bool

/-- Result of one effectful executor call: the state left behind, the
collaborator calls performed, and the exception raised, if any (raised
after the recorded effects). -/
abbrev ExecRes := ExecState × List Act × Option Err

/-! ## Locator resolution (`_locator_from_step`, `_find_element`) -/

/-- `InteractionLogExecutor._locator_from_step`. -/
def locator_from_step (step : InteractionStep) : Option Locator :=
  match pyTruthyStr step.selector with
  | some s => some (By.cssSelector, s)
  | none =>
    match pyTruthyStr step.testId with
    | some tid =>
      some (By.cssSelector,
        "[data-testid='" ++ pyReplaceChar tid '\'' "\\'" ++ "']")
    | none =>
      match pyTruthyStr step.elementId with
      | some eid => some (By.id, eid)
      | none => none

/-- `SimpleInteractionLogExecutor._locator_from_step` (the DOM-id branch
is commented out in the source). -/
def s_locator_from_step (step : InteractionStep) : Option Locator :=
  match pyTruthyStr step.selector with
  | some s => some (By.cssSelector, s)
  | none =>
    match pyTruthyStr step.testId with
    | some tid =>
      some (By.cssSelector,
        "[data-testid='" ++ pyReplaceChar tid '\'' "\\'" ++ "']")
    | none => none

/-- `InteractionLogExecutor._find_element`. -/
def find_element (env : Env) (step : InteractionStep) : Option Elem :=
  match locator_from_step step with
  | none => none
  | some loc => env.findLoc loc

/-! ## Recognizers (`_is_*`) -/

/-- `InteractionLogExecutor._is_testid_prefix`. -/
def is_testid_pref (step : InteractionStep) (pfx : String) : Bool :=
  match pyTruthyStr step.testId with
  | none => false
  | some tid => tid == pfx || pyStartsWith tid (pfx ++ "-")

/-- Python `bool(step.test_id and step.test_id.startswith(p))`. -/
def testid_startswith (step : InteractionStep) (p : String) : Bool :=
  match pyTruthyStr step.testId with
  | none => false
  | some tid => pyStartsWith tid p

/-- `InteractionLogExecutor._is_query_name_input`. -/
def is_query_name_input (step : InteractionStep) : Bool :=
  step.elementId == some "dialog-menu-name-sqlreq"
    || is_testid_pref step "dialog-menu-name-sqlreq"
    || is_testid_pref step "sql-manager-add-query-name"

/-- `InteractionLogExecutor._is_export_destination_select`. -/
def is_export_destination_select (step : InteractionStep) : Bool :=
  step.elementId == some "export-destination-select"
    || is_testid_pref step "export-destination-select"
    || is_testid_pref step "sql-manager-export-destination"

/-- `InteractionLogExecutor._is_export_destination_option`. -/
def is_export_destination_option (step : InteractionStep) : Bool :=
  testid_startswith step "custom-select-item-sql_manager_export_destination-"

/-- `InteractionLogExecutor._is_connection_item`. -/
def is_connection_item (step : InteractionStep) : Bool :=
  testid_startswith step "cm-tree-connection-"

/-- `InteractionLogExecutor._is_query_delete_button`. -/
def is_query_delete_button (step : InteractionStep) : Bool :=
  testid_startswith step "sql-manager-query-delete-"

/-- `InteractionLogExecutor._is_codemirror_target`. -/
def is_codemirror_target (step : InteractionStep) : Bool :=
  match pyTruthyStr step.testId with
  | none => false
  | some tid =>
    pyStartsWith tid "sql-codemirror-"
      || pyStartsWith tid "sql-manager-query-editor-"

/-! ## Text heuristics -/

/-- `InteractionLogExecutor._clean_connection_title`: drop zero-width
spaces, strip, then peel each known glyph marker (Python `str.lstrip` with
a one-character set) followed by another strip. -/
def clean_connection_title (value : Option String) : String :=
  let t0 := pyStrip (pyReplaceChar (value.getD "") '\u200B' "")
  let t1 := pyStrip (pyLstripChar t0 '▶')
  let t2 := pyStrip (pyLstripChar t1 '▸')
  pyStrip (pyLstripChar t2 '►')

/-- `InteractionLogExecutor._infer_export_destination_value`. -/
def infer_export_destination_value (text : Option String) : Option String :=
  let normalized := pyLower (text.getD "")
  if pyContains normalized "нов" then some "file"
  else if pyContains normalized "текущ" then some "document"
  else if pyContains normalized "new" || pyContains normalized "nov" then
    some "file"
  else if pyContains normalized "current" || pyContains normalized "tekusch"
  then some "document"
  else none

/-- `InteractionLogExecutor._infer_export_destination_visible_text`. -/
def infer_export_destination_visible_text (step : InteractionStep) :
    Option String :=
  let text := pyStrip (step.text.getD "")
  if text ≠ "" then some text
  else
    let tid := step.testId.getD ""
    if pyEndsWith tid "-file" then some "В новый файл"
    else if pyEndsWith tid "-document" then some "В текущий документ"
    else
      let value := infer_export_destination_value step.value
      if value = some "file" then some "В новый файл"
      else if value = some "document" then some "В текущий документ"
      else none

/-! ## Context tracker (`_sync_active_card_from_page`, `_set_active_card`,
`_resolve_card`, `_remember_active_card`) -/

/-- `InteractionLogExecutor._sync_active_card_from_page`. -/
def sync_active_card_from_page (env : Env) (st : ExecState) : ExecState :=
  match st.pageCard with
  | some c => if env.alive c then { st with activeCard := some c } else st
  | none => st

/-- `InteractionLogExecutor._set_active_card`. -/
def set_active_card (st : ExecState) (c : Elem) : ExecState :=
  { st with activeCard := some c, pageCard := some c }

/-- Stage (d) of `_resolve_card`: semantic lookup by query/connection name,
then the `required` verdict. -/
def resolve_card_names (env : Env) (st : ExecState) (step : InteractionStep)
    (required : Bool) : ExecState × Option Elem × Option Err :=
  let query_name := pyStrip (step.rawQueryName.getD "")
  let connection_name := pyStrip (step.connectionName.getD "")
  let attempt :=
    if query_name ≠ "" ∨ connection_name ≠ "" then
      let qn := if query_name = "" then none else some query_name
      let cn := if connection_name = "" then none else some connection_name
      env.expandCard qn cn
    else none
  match attempt with
  | some card => (set_active_card st card, some card, none)
  | none =>
    if required then (st, none, some (.cannotResolveCard step.index))
    else (st, none, none)

/-- Stage (c) of `_resolve_card`: locate an element from the step and walk
up to its nearest `.query-card` ancestor. -/
def resolve_card_element (env : Env) (st : ExecState) (step : InteractionStep)
    (required : Bool) : ExecState × Option Elem × Option Err :=
  match find_element env step with
  | some e =>
    match env.closestQueryCard e with
    | some card => (set_active_card st card, some card, none)
    | none => resolve_card_names env st step required
  | none => resolve_card_names env st step required

/-- Stage (b) of `_resolve_card`: adopt the locally remembered card if
still alive, mirroring it back into the page object. -/
def resolve_card_active (env : Env) (st : ExecState) (step : InteractionStep)
    (required : Bool) : ExecState × Option Elem × Option Err :=
  match st.activeCard with
  | some c =>
    if env.alive c then ({ st with pageCard := some c }, some c, none)
    else resolve_card_element env st step required
  | none => resolve_card_element env st step required

/-- `InteractionLogExecutor._resolve_card`, starting at stage (a): adopt
the page object's own card if alive. -/
def resolve_card (env : Env) (st : ExecState) (step : InteractionStep)
    (required : Bool) : ExecState × Option Elem × Option Err :=
  match st.pageCard with
  | some c =>
    if env.alive c then ({ st with activeCard := some c }, some c, none)
    else resolve_card_active env st step required
  | none => resolve_card_active env st step required

/-- `InteractionLogExecutor._remember_active_card`. -/
def remember_active_card (env : Env) (st : ExecState)
    (step : InteractionStep) : ExecState :=
  let st1 := sync_active_card_from_page env st
  match st1.activeCard with
  | some _ => st1
  | none =>
    match find_element env step with
    | none => st1
    | some e =>
      match env.closestQueryCard e with
      | some card => set_active_card st1 card
      | none => st1

/-! ## Generic fallback actions -/

/-- `InteractionLogExecutor._click_generic`. -/
def click_generic (st : ExecState) (step : InteractionStep) : ExecRes :=
  match locator_from_step step with
  | none => (st, [], some (.noSuchElement step.index))
  | some loc => (st, [.clickLocator loc], none)

/-- `_click_generic` then `_remember_active_card`, the tail of both
`_handle_click_activate` and the unmapped-click fallback. -/
def click_then_remember (env : Env) (st : ExecState)
    (step : InteractionStep) : ExecRes :=
  match click_generic st step with
  | (st1, tr, some e) => (st1, tr, some e)
  | (st1, tr, none) => (remember_active_card env st1 step, tr, none)

/-- `InteractionLogExecutor._set_select_value`: `select_by_value`, else
`select_by_visible_text`, else forced JS assignment; always followed by a
synthetic change event. -/
def set_select_value (env : Env) (e : Elem) (value : String) : List Act :=
  (if env.selectByValueOk e value then [Act.selectByValue e value]
   else if env.selectByTextOk e value then [Act.selectByText e value]
   else [Act.jsAssignValue e value]) ++ [Act.dispatchChange e]

/-- `InteractionLogExecutor._set_value_generic`. -/
def set_value_generic (env : Env) (st : ExecState)
    (step : InteractionStep) : ExecRes :=
  match find_element env step with
  | none => (st, [], some (.noSuchElement step.index))
  | some e =>
    let value := step.value.getD ""
    let tag := pyLower (env.tagName e)
    if tag = "input" ∨ tag = "textarea" then
      (st, [.clearSendKeys e value], none)
    else if tag = "select" then (st, set_select_value env e value, none)
    else (st, [.jsSetValue e value], none)

/-- `InteractionLogExecutor._set_codemirror_generic`. -/
def set_codemirror_generic (env : Env) (st : ExecState)
    (step : InteractionStep) : ExecRes :=
  match find_element env step with
  | none => (st, [], some (.noSuchElement step.index))
  | some e =>
    let value := step.value.getD ""
    if env.codemirrorApply e then (st, [.jsSetCodemirror e value], none)
    else (st, [], some (.codemirrorNotApplied step.index))

/-- `InteractionLogExecutor._set_export_destination`. -/
def set_export_destination (env : Env) (st : ExecState)
    (step : InteractionStep) : ExecRes :=
  let value :=
    match pyTruthyStr step.value with
    | some v => some v
    | none => infer_export_destination_value step.text
  match value with
  | none => set_value_generic env st step
  | some v =>
    let element :=
      match find_element env step with
      | some e => some e
      | none =>
        env.findLoc (By.cssSelector,
          "[data-testid='sql-manager-export-destination']")
    match element with
    | none => (st, [], some .exportSelectNotFound)
    | some e => (st, set_select_value env e v, none)

/-! ## Opaque-id click routes (`_exact_click_routes`,
`_dispatch_click_route`) -/

/-- The full executor's exact-match route table, in declaration order.
Each value names the bound no-argument page-object operation. -/
def exact_click_routes : List (String × Act) := [
  ("main-sql-mode", .pageOp "plugin_page.click_main_sql_mode"),
  ("main-olap-mode", .pageOp "plugin_page.click_main_olap_mode"),
  ("main-file-mode", .pageOp "plugin_page.click_main_file_mode"),
  ("main-smartdocs", .pageOp "plugin_page.click_main_smartdocs"),
  ("main-connection-manager", .pageOp "plugin_page.click_main_connection_manager"),
  ("main-settings", .pageOp "plugin_page.click_main_settings"),
  ("main-about", .pageOp "plugin_page.click_main_about"),
  ("sql-home-open-sql-manager", .pageOp "sql_mode_page.click_sql_manager"),
  ("sql-home-open-report-manager", .pageOp "sql_mode_page.click_report_manager"),
  ("sql-home-open-query-history", .pageOp "sql_mode_page.click_query_history"),
  ("sql-home-open-log", .pageOp "sql_mode_page.click_log"),
  ("sql-manager-add-query-open", .pageOp "sql_manager_page.click_add_query_button"),
  ("sql-manager-add-query-confirm", .pageOp "sql_manager_page.confirm_add_query"),
  ("sql-manager-export-confirm", .pageOp "sql_manager_page.confirm_export"),
  ("messagebox-button-OK-0", .pageOp "sql_manager_page.click_success_ok"),
  ("sql-manager-minimize", .pageOp "sql_manager_page.minimize"),
  ("sql-manager-toggle-left-panel", .pageOp "sql_manager_page.toggle_left_panel_panel")]

/-- The `sql-home-open-` family probe of `_dispatch_click_route`. -/
def dispatch_sql_home (env : Env) (tid : String) : Option (List Act) :=
  if pyStartsWith tid "sql-home-open-" then
    let mname :=
      "click_" ++ dashToUnderscore (strDrop tid "sql-home-open-".length)
    if env.callNoargSqlMode mname then
      some [Act.reflectCall "sql_mode_page" mname]
    else none
  else none

/-- `InteractionLogExecutor._dispatch_click_route`: exact table first, then
the `main-` reflective probe, then the `sql-home-open-` reflective probe.
`none` means "not handled" (returns `False`). -/
def dispatch_click_route (env : Env) (step : InteractionStep) :
    Option (List Act) :=
  match pyTruthyStr step.testId with
  | none => none
  | some tid =>
    match exact_click_routes.lookup tid with
    | some act => some [act]
    | none =>
      if pyStartsWith tid "main-" then
        let mname := "click_" ++ dashToUnderscore tid
        if env.callNoargPlugin mname then
          some [Act.reflectCall "plugin_page" mname]
        else dispatch_sql_home env tid
      else dispatch_sql_home env tid

/-! ## Click/activate handlers -/

/-- The connection name `_activate_connection` resolves: the explicit
`connectionName` field (stripped), else the display text with glyph
markers and zero-width characters removed. -/
def resolved_connection_name (step : InteractionStep) : String :=
  let connection_name := pyStrip (step.connectionName.getD "")
  if connection_name = "" then clean_connection_title step.text
  else connection_name

/-- `InteractionLogExecutor._activate_connection`. -/
def activate_connection (st : ExecState) (step : InteractionStep) : ExecRes :=
  if resolved_connection_name step ≠ "" then
    (st, [.selectConnection (resolved_connection_name step)], none)
  else click_generic st step

/-- `InteractionLogExecutor._activate_export_destination_option`. -/
def activate_export_destination_option (st : ExecState)
    (step : InteractionStep) : ExecRes :=
  match infer_export_destination_visible_text step with
  | none => click_generic st step
  | some t => (st, [.selectExportDestination t], none)

/-- `InteractionLogExecutor._activate_codemirror`: the `Bool` is the
Python return value; the state records the side effects of the embedded
`_resolve_card(required=False)` call even on the `False` paths. -/
def activate_codemirror (env : Env) (st : ExecState)
    (step : InteractionStep) : Bool × List Act × ExecState :=
  match resolve_card env st step false with
  | (st1, some card, _) =>
    match env.findChildByTestid card "sql-codemirror" with
    | some editor => (true, [Act.jsClick editor], set_active_card st1 card)
    | none =>
      match env.findChildByTestid card "sql-manager-query-editor" with
      | some editor => (true, [Act.jsClick editor], set_active_card st1 card)
      | none => (false, [], st1)
  | (st1, none, _) => (false, [], st1)

/-- `InteractionLogExecutor._handle_click_delete`: required context
resolution, the delete click, then both context slots are cleared. -/
def handle_click_delete (env : Env) (st : ExecState)
    (step : InteractionStep) : ExecRes :=
  match resolve_card env st step true with
  | (st1, _, some e) => (st1, [], some e)
  | (_, _, none) =>
    (⟨none, none⟩, [.pageOp "sql_manager_page.click_query_delete"], none)

/-- `InteractionLogExecutor._handle_click_preview`. -/
def handle_click_preview (env : Env) (st : ExecState)
    (step : InteractionStep) : ExecRes :=
  match resolve_card env st step true with
  | (st1, _, some e) => (st1, [], some e)
  | (st1, _, none) =>
    (st1, [.pageOp "sql_manager_page.click_query_preview"], none)

/-- `InteractionLogExecutor._handle_click_export`. -/
def handle_click_export (env : Env) (st : ExecState)
    (step : InteractionStep) : ExecRes :=
  match resolve_card env st step true with
  | (st1, _, some e) => (st1, [], some e)
  | (st1, _, none) => (st1, [.pageOp "sql_manager_page.click_export"], none)

/-- `InteractionLogExecutor._handle_click_activate`: the layered
click/activate dispatch. -/
def handle_click_activate (env : Env) (st : ExecState)
    (step : InteractionStep) : ExecRes :=
  match dispatch_click_route env step with
  | some tr => (sync_active_card_from_page env st, tr, none)
  | none =>
    if is_connection_item step then activate_connection st step
    else if is_query_delete_button step then handle_click_delete env st step
    else if is_export_destination_option step then
      activate_export_destination_option st step
    else
      let r :=
        if is_codemirror_target step then activate_codemirror env st step
        else (false, [], st)
      match r with
      | (true, tr, st1) => (st1, tr, none)
      | (false, tr, st1) =>
        match click_then_remember env st1 step with
        | (st2, tr2, e) => (st2, tr ++ tr2, e)

/-! ## Value-set handlers -/

/-- `InteractionLogExecutor._handle_input_set_value`. -/
def handle_input_set_value (env : Env) (st : ExecState)
    (step : InteractionStep) : ExecRes :=
  if is_query_name_input step then
    (st, [.enterQueryName (step.value.getD "")], none)
  else if is_export_destination_select step then
    set_export_destination env st step
  else set_value_generic env st step

/-- `InteractionLogExecutor._handle_change_set_value` (same body as the
input handler in the source). -/
def handle_change_set_value (env : Env) (st : ExecState)
    (step : InteractionStep) : ExecRes :=
  if is_query_name_input step then
    (st, [.enterQueryName (step.value.getD "")], none)
  else if is_export_destination_select step then
    set_export_destination env st step
  else set_value_generic env st step

/-- `InteractionLogExecutor._handle_codemirror_set_value`. -/
def handle_codemirror_set_value (env : Env) (st : ExecState)
    (step : InteractionStep) : ExecRes :=
  match resolve_card env st step false with
  | (st1, some _, _) =>
    (st1, [.setQueryText (step.value.getD "")], none)
  | (st1, none, _) => set_codemirror_generic env st1 step

/-! ## Unmapped-action fallback and dispatch -/

/-- The module-level `KEYBOARD_EVENTS` set. -/
def KEYBOARD_EVENTS : List String := ["keydown", "keyup", "keypress"]

/-- `InteractionLogExecutor._handle_unmapped_action`. -/
def handle_unmapped_action (env : Env) (st : ExecState)
    (step : InteractionStep) : ExecRes :=
  if step.event ∈ KEYBOARD_EVENTS then (st, [], none)
  else if step.event = "click" then click_then_remember env st step
  else if (step.event = "input" ∨ step.event = "change") ∧ step.value ≠ none
  then set_value_generic env st step
  else if step.event = "codemirror-change" ∧ step.value ≠ none then
    set_codemirror_generic env st step
  else (st, [], some (.noHandler step.index step.event step.action))

/-- The keys of the `_handlers` map built in `__init__`. -/
def handler_keys : List (String × String) :=
  [("click", "activate"), ("click", "preview"), ("click", "export"),
   ("click", "delete"), ("input", "set-value"), ("change", "set-value"),
   ("codemirror-change", "set-value")]

/-- `InteractionLogExecutor.execute_step`: the `(event, action)` handler
map, else the unmapped-action fallback. -/
def execute_step (env : Env) (st : ExecState)
    (step : InteractionStep) : ExecRes :=
  if (step.event, step.action) = ("click", "activate") then
    handle_click_activate env st step
  else if (step.event, step.action) = ("click", "preview") then
    handle_click_preview env st step
  else if (step.event, step.action) = ("click", "export") then
    handle_click_export env st step
  else if (step.event, step.action) = ("click", "delete") then
    handle_click_delete env st step
  else if (step.event, step.action) = ("input", "set-value") then
    handle_input_set_value env st step
  else if (step.event, step.action) = ("change", "set-value") then
    handle_change_set_value env st step
  else if (step.event, step.action) = ("codemirror-change", "set-value") then
    handle_codemirror_set_value env st step
  else handle_unmapped_action env st step

/-! ## Replay loop (`replay_steps`) -/

/-- `ReplayFailure`: a failing step paired with its error. -/
structure ReplayFailure where
  step : InteractionStep
  error : Err
deriving DecidableEq, Repr

/-- The `RuntimeError` raised in fail-fast mode, wrapping the step's
index, seq, event/action and testId (the fields interpolated into the
message) and the causing exception (`raise ... from exc`). -/
structure ReplayAbort where
  line : Nat
  seq : Option Int
  event : String
  action : String
  testId : Option String
  cause : Err
deriving DecidableEq, Repr

/-- The abort record built from a failing step. -/
def mkAbort (step : InteractionStep) (e : Err) : ReplayAbort :=
  ⟨step.index, step.seq, step.event, step.action, step.testId, e⟩

/-- `InteractionLogExecutor.replay_steps`: fail-fast re-raises a
`RuntimeError` on the first failing step; continue-on-error collects
`ReplayFailure` records and keeps going with the state the failing step
left behind. -/
def replay_steps (env : Env) (stop_on_error : Bool) (st : ExecState) :
    List InteractionStep → Except ReplayAbort (List ReplayFailure × ExecState)
  | [] => .ok ([], st)
  | step :: rest =>
    match execute_step env st step with
    | (st1, _, none) => replay_steps env stop_on_error st1 rest
    | (st1, _, some e) =>
      if stop_on_error then .error (mkAbort step e)
      else
        (replay_steps env stop_on_error st1 rest).map
          (fun p => (⟨step, e⟩ :: p.1, p.2))

/-- The per-step outcomes of a replay run with threaded state: each entry
is the step, the error its execution raised (if any), and the state it
left behind. Used to state properties of both replay modes. -/
def runOutcomes (env : Env) (st : ExecState) :
    List InteractionStep → List (InteractionStep × Option Err × ExecState)
  | [] => []
  | step :: rest =>
    match execute_step env st step with
    | (st1, _, e?) => (step, e?, st1) :: runOutcomes env st1 rest

/-- The state after a replay run that never stops. -/
def runFinalState (env : Env) (st : ExecState) :
    List InteractionStep → ExecState
  | [] => st
  | step :: rest => runFinalState env (execute_step env st step).1 rest

/-! ## The simple executor (`interaction_log_executor_simple.py`)

`SimpleInteractionLogExecutor` has no `_active_card` of its own; only the
`pageCard` component of `ExecState` is meaningful for it. -/

/-- `SimpleInteractionLogExecutor._click_generic` (uses the simple
locator derivation, which ignores DOM ids). -/
def s_click_generic (st : ExecState) (step : InteractionStep) : ExecRes :=
  match s_locator_from_step step with
  | none => (st, [], some (.noSuchElement step.index))
  | some loc => (st, [.clickLocator loc], none)

/-- `SimpleInteractionLogExecutor._set_query_text_from_step`. -/
def s_set_query_text_from_step (st : ExecState)
    (step : InteractionStep) : ExecRes :=
  match step.value with
  | none => (st, [], some (.codemirrorNoValue step.index))
  | some v => (st, [.setQueryText v], none)

/-- `SimpleInteractionLogExecutor._set_query_name_from_step`. -/
def s_set_query_name_from_step (st : ExecState)
    (step : InteractionStep) : ExecRes :=
  let value := pyStrip (step.value.getD "")
  if value = "" then (st, [], none)
  else (st, [.enterQueryName value], none)

/-- `SimpleInteractionLogExecutor._set_export_destination_from_step`. -/
def s_set_export_destination_from_step (st : ExecState)
    (step : InteractionStep) : ExecRes :=
  let visible :=
    if pyStrip (step.text.getD "") ≠ "" then pyStrip (step.text.getD "")
    else pyStrip (step.value.getD "")
  if visible = "" then (st, [], none)
  else (st, [.selectExportDestination visible], none)

/-- `SimpleInteractionLogExecutor._delete_active_query`. -/
def s_delete_active_query (st : ExecState) : ExecRes :=
  ({ st with pageCard := none },
   [.pageOp "sql_manager_page.click_query_delete"], none)

/-- A simple-executor route handler. -/
abbrev SRoute := Env → ExecState → InteractionStep → ExecRes

/-- The simple executor's exact-match click routes, in declaration
order (`_build_click_routes`). -/
def simple_exact_routes : List (String × SRoute) := [
  ("main-sql-mode", fun _ st _ =>
    (st, [.pageOp "plugin_page.click_main_sql_mode"], none)),
  ("main-olap-mode", fun _ st _ =>
    (st, [.pageOp "plugin_page.click_main_olap_mode"], none)),
  ("main-file-mode", fun _ st _ =>
    (st, [.pageOp "plugin_page.click_main_file_mode"], none)),
  ("main-smartdocs", fun _ st _ =>
    (st, [.pageOp "plugin_page.click_main_smartdocs"], none)),
  ("main-connection-manager", fun _ st _ =>
    (st, [.pageOp "plugin_page.click_main_connection_manager"], none)),
  ("main-settings", fun _ st _ =>
    (st, [.pageOp "plugin_page.click_main_settings"], none)),
  ("main-about", fun _ st _ =>
    (st, [.pageOp "plugin_page.click_main_about"], none)),
  ("sql-home-open-sql-manager", fun _ st _ =>
    (st, [.pageOp "sql_mode_page.click_sql_manager"], none)),
  ("sql-home-open-report-manager", fun _ st _ =>
    (st, [.pageOp "sql_mode_page.click_report_manager"], none)),
  ("sql-home-open-query-history", fun _ st _ =>
    (st, [.pageOp "sql_mode_page.click_query_history"], none)),
  ("sql-home-open-log", fun _ st _ =>
    (st, [.pageOp "sql_mode_page.click_log"], none)),
  ("sql-manager-add-query-open", fun _ st _ =>
    (st, [.pageOp "sql_manager_page.click_add_query_button"], none)),
  ("sql-manager-add-query-confirm", fun _ st _ =>
    (st, [.pageOp "sql_manager_page.confirm_add_query"], none)),
  ("sql-manager-add-query-name", fun _ st step =>
    s_set_query_name_from_step st step),
  ("sql-manager-export-confirm", fun _ st _ =>
    (st, [.pageOp "sql_manager_page.confirm_export"], none)),
  ("sql-manager-export-destination", fun _ st step =>
    s_set_export_destination_from_step st step),
  ("messagebox-button-OK-0", fun _ st _ =>
    (st, [.pageOp "sql_manager_page.click_success_ok"], none)),
  ("sql-manager-minimize", fun _ st _ =>
    (st, [.pageOp "sql_manager_page.minimize"], none)),
  ("sql-manager-toggle-left-panel", fun _ st _ =>
    (st, [.pageOp "sql_manager_page.toggle_left_panel_panel"], none))]

/-- The simple executor's prefix-match click routes, in declaration order
(`_build_click_routes`; the dict's insertion order is the iteration
order of `_dispatch_by_test_id`). -/
def simple_prefix_routes : List (String × SRoute) := [
  ("cm-tree-connection-", fun _ st step =>
    if pyStrip (step.connectionName.getD "") ≠ "" then
      (st, [.selectConnection (pyStrip (step.connectionName.getD ""))], none)
    else s_click_generic st step),
  ("sql-manager-query-preview-", fun _ st _ =>
    (st, [.pageOp "sql_manager_page.click_query_preview"], none)),
  ("sql-manager-query-export-", fun _ st _ =>
    (st, [.pageOp "sql_manager_page.click_export"], none)),
  ("sql-manager-query-delete-", fun _ st _ => s_delete_active_query st),
  ("sql-manager-query-editor-", fun _ st step =>
    s_set_query_text_from_step st step),
  ("custom-select-item-sql_manager_export_destination-", fun _ st step =>
    if (if pyStrip (step.text.getD "") ≠ "" then pyStrip (step.text.getD "")
        else pyStrip (step.value.getD "")) ≠ "" then
      (st, [.selectExportDestination
        (if pyStrip (step.text.getD "") ≠ "" then pyStrip (step.text.getD "")
         else pyStrip (step.value.getD ""))], none)
    else s_click_generic st step)]

/-- The `for prefix, handler in self.click_routes_prefix.items()` probe of
`_dispatch_by_test_id`. -/
def s_probe (env : Env) (st : ExecState) (step : InteractionStep)
    (tid : String) : List (String × SRoute) → Option ExecRes
  | [] => none
  | (p, h) :: rest =>
    if pyStartsWith tid p then some (h env st step)
    else s_probe env st step tid rest

/-- `SimpleInteractionLogExecutor._dispatch_by_test_id`: exact table
first, then the declared prefixes in order; `none` = not handled. -/
def s_dispatch_by_test_id (env : Env) (st : ExecState)
    (step : InteractionStep) : Option ExecRes :=
  match pyTruthyStr step.testId with
  | none => none
  | some tid =>
    match simple_exact_routes.lookup tid with
    | some h => some (h env st step)
    | none => s_probe env st step tid simple_prefix_routes

/-! ## Auxiliary notions used by the statements -/

/-- The agreement invariant between the executor's `_active_card` and the
collaborator's `sql_manager_page.card`: same element or both absent. -/
def cardsAgree (st : ExecState) : Prop := st.activeCard = st.pageCard

/-- The failure list a continue-on-error run collects, read off the
per-step outcomes. -/
def failuresOf (outs : List (InteractionStep × Option Err × ExecState)) :
    List ReplayFailure :=
  outs.filterMap (fun o => o.2.1.map (fun e => ⟨o.1, e⟩))

/-- The lines of a file paired with their line numbers, starting at `n`. -/
def numberedFrom (n : Nat) (lines : List String) : List (Nat × String) :=
  (List.range' n lines.length).zip lines

/-- The lines of a file paired with their 1-based line numbers. -/
def numberedLines (lines : List String) : List (Nat × String) :=
  numberedFrom 1 lines

/-- What one numbered file line contributes to `read_interaction_log`'s
result: nothing for a blank line, its parsed step otherwise. -/
def parseLine (jsonLoads : String → Option PyJson) (p : Nat × String) :
    Option ParsedStep :=
  if pyStrip p.2 = "" then none
  else
    match jsonLoads (pyStrip p.2) with
    | some (.obj raw) => from_raw raw p.1
    | _ => none

/-- A numbered file line that does not make `read_interaction_log` raise:
blank, or a JSON object whose parse succeeds. -/
def lineOk (jsonLoads : String → Option PyJson) (p : Nat × String) : Bool :=
  if pyStrip p.2 = "" then true
  else
    match jsonLoads (pyStrip p.2) with
    | some (.obj raw) => (from_raw raw p.1).isSome
    | _ => false

/-- A step with no payload, used to build concrete instances. -/
def blankStep : InteractionStep :=
  ⟨1, none, "", "", none, none, none, none, none, none, none, none, none,
   none, none, none⟩

/-- A step carrying all three locator hints. -/
def selStep : InteractionStep :=
  { blankStep with selector := some "div.x", testId := some "tid", elementId := some "el" }

/-- A step whose strongest locator hint is an opaque id with a quote. -/
def tidStep : InteractionStep :=
  { blankStep with testId := some "it's", elementId := some "el" }

/-- A step whose only locator hint is an opaque id. -/
def tidOnlyStep : InteractionStep := { blankStep with testId := some "tid" }

/-- A step whose only locator hint is a DOM id. -/
def domStep : InteractionStep := { blankStep with elementId := some "el" }

/-- A step carrying a raw `queryName`. -/
def delStep : InteractionStep := { blankStep with rawQueryName := some "q" }

/-- A collaborator environment where nothing resolves and every element is
alive, used to build concrete instances. -/
def env0 : Env where
  alive := fun _ => true
  findLoc := fun _ => none
  closestQueryCard := fun _ => none
  expandCard := fun _ _ => none
  callNoargPlugin := fun _ => false
  callNoargSqlMode := fun _ => false
  findChildByTestid := fun _ _ => none
  tagName := fun _ => ""
  selectByValueOk := fun _ _ => false
  selectByTextOk := fun _ _ => false
  codemirrorApply := fun _ => false

/-- A step whose opaque id matches both the exact table and the `main-`
family probe. -/
def mainStep : InteractionStep :=
  { blankStep with testId := some "main-sql-mode" }

/-- A step whose opaque id is an exact key of the simple executor. -/
def exactSimpleStep : InteractionStep :=
  { blankStep with testId := some "sql-manager-minimize" }

/-- A connection-tree step with an explicit connection name. -/
def connStep : InteractionStep :=
  { blankStep with testId := some "cm-tree-connection-1", connectionName := some "ora" }

/-- An environment where every reflective no-arg call succeeds. -/
def envRefl : Env := { env0 with callNoargPlugin := fun _ => true }

/-- An unmapped keyboard step. -/
def kbStep : InteractionStep :=
  { blankStep with event := "keydown", action := "x" }

/-- An unmapped click step with no locator hint. -/
def oddClickStep : InteractionStep :=
  { blankStep with event := "click", action := "weird" }

/-- An unmapped click step with a selector. -/
def oddClickSelStep : InteractionStep :=
  { blankStep with event := "click", action := "weird", selector := some "div.x" }

/-- An unmapped input step with a value. -/
def oddInputStep : InteractionStep :=
  { blankStep with event := "input", action := "weird", value := some "v" }

/-- An unmapped codemirror-change step with a value. -/
def oddCmStep : InteractionStep :=
  { blankStep with event := "codemirror-change", action := "weird", value := some "v" }

/-- A step matching no dispatch path and no fallback. -/
def oddStep : InteractionStep :=
  { blankStep with event := "submit", action := "x" }

/-- A query-delete-button step. -/
def delBtnStep : InteractionStep :=
  { blankStep with testId := some "sql-manager-query-delete-1" }

/-- An export-destination-option step whose id ends in `-file`. -/
def exportOptStep : InteractionStep :=
  { blankStep with
      testId := some "custom-select-item-sql_manager_export_destination-file" }

/-- A code-editor-target step. -/
def cmTargetStep : InteractionStep :=
  { blankStep with testId := some "sql-codemirror-1" }

/-- An environment where the nested editor child lookup succeeds. -/
def envChild : Env := { env0 with findChildByTestid := fun _ _ => some 9 }

/-- An environment where element lookup and the `.query-card` ancestor
walk succeed. -/
def envFind : Env :=
  { env0 with findLoc := fun _ => some 2, closestQueryCard := fun _ => some 3 }

/-- An environment where only the name-based card expansion succeeds. -/
def envExpand : Env := { env0 with expandCard := fun _ _ => some 7 }

/-- A concrete `json.loads`: decodes `"{}"` to an empty object and `"1"`
to the number 1, and fails on everything else. -/
def jl0 : String → Option PyJson := fun s =>
  if s = "{}" then some (.obj [])
  else if s = "1" then some (.other (.jnum 1))
  else none

/-! ### Facts about the string primitives -/

theorem char_eq_iff_toNat {c d : Char} : c = d ↔ c.toNat = d.toNat :=
  ⟨fun h => by rw [h], fun h => by
    have h2 := congrArg Char.ofNat h
    rwa [Char.ofNat_toNat, Char.ofNat_toNat] at h2⟩

theorem toNat_ofNat_of_valid {n : Nat} (h : n.isValidChar) :
    (Char.ofNat n).toNat = n := by
  rw [Char.ofNat, dif_pos h]
  rfl

theorem charToLower_def (c : Char) :
    Char.toLower c =
      if 65 ≤ c.toNat ∧ c.toNat ≤ 90 then Char.ofNat (c.toNat + 32) else c :=
  rfl

theorem charToLower_toNat_of_upper {c : Char} (h1 : 65 ≤ c.toNat)
    (h2 : c.toNat ≤ 90) : (Char.toLower c).toNat = c.toNat + 32 := by
  have hval : Nat.isValidChar (c.toNat + 32) := Or.inl (by omega)
  rw [charToLower_def, if_pos ⟨h1, h2⟩, toNat_ofNat_of_valid hval]

theorem charToLower_eq_self {c : Char} (h : ¬(65 ≤ c.toNat ∧ c.toNat ≤ 90)) :
    Char.toLower c = c := by
  rw [charToLower_def, if_neg h]

theorem charToLower_idem (c : Char) :
    Char.toLower (Char.toLower c) = Char.toLower c := by
  by_cases h : 65 ≤ c.toNat ∧ c.toNat ≤ 90
  · have hn := charToLower_toNat_of_upper h.1 h.2
    apply charToLower_eq_self
    omega
  · simp only [charToLower_eq_self h]

theorem isWhitespace_iff_toNat (c : Char) :
    c.isWhitespace = true ↔
      (c.toNat = 32 ∨ c.toNat = 9 ∨ c.toNat = 13 ∨ c.toNat = 10) := by
  simp only [Char.isWhitespace, Bool.or_eq_true, decide_eq_true_eq,
    char_eq_iff_toNat, show (' ' : Char).toNat = 32 from rfl,
    show ('\t' : Char).toNat = 9 from rfl,
    show ('\r' : Char).toNat = 13 from rfl,
    show ('\n' : Char).toNat = 10 from rfl]
  tauto

theorem isWhitespace_charToLower (c : Char) :
    (Char.toLower c).isWhitespace = c.isWhitespace := by
  by_cases h : 65 ≤ c.toNat ∧ c.toNat ≤ 90
  · have hn := charToLower_toNat_of_upper h.1 h.2
    have e1 : ¬ (c.isWhitespace = true) := by
      rw [isWhitespace_iff_toNat]
      omega
    have e2 : ¬ ((Char.toLower c).isWhitespace = true) := by
      rw [isWhitespace_iff_toNat, hn]
      omega
    rw [Bool.not_eq_true] at e1 e2
    rw [e1, e2]
  · rw [charToLower_eq_self h]

theorem pyLower_idem (s : String) : pyLower (pyLower s) = pyLower s := by
  simp only [pyLower, List.map_map]
  congr 1
  apply List.map_congr_left
  intro c _
  exact charToLower_idem c

theorem dropWhile_eq_self_of_isPrefix {p : Char → Bool} {m r : List Char}
    (hpref : r <+: m) (hx : m.dropWhile p = m) : r.dropWhile p = r := by
  rcases r with _ | ⟨x, xs⟩
  · simp
  · rcases m with _ | ⟨y, ys⟩
    · exact absurd hpref (by simp)
    · obtain ⟨hxy, -⟩ := List.cons_prefix_cons.mp hpref
      subst hxy
      simp only [List.dropWhile_cons] at hx ⊢
      by_cases hy : p x = true
      · rw [if_pos hy] at hx
        have hlen := (List.dropWhile_suffix (l := ys) p).sublist.length_le
        rw [hx] at hlen
        simp at hlen
      · rw [if_neg hy]

theorem stripCore_idem (l : List Char) :
    List.rdropWhile Char.isWhitespace
        ((List.rdropWhile Char.isWhitespace
          (l.dropWhile Char.isWhitespace)).dropWhile Char.isWhitespace) =
      List.rdropWhile Char.isWhitespace (l.dropWhile Char.isWhitespace) := by
  have hx : (l.dropWhile Char.isWhitespace).dropWhile Char.isWhitespace =
      l.dropWhile Char.isWhitespace := List.dropWhile_idempotent _ l
  have h1 := dropWhile_eq_self_of_isPrefix
    (List.rdropWhile_prefix Char.isWhitespace (l.dropWhile Char.isWhitespace)) hx
  rw [h1, List.rdropWhile_idempotent]

theorem pyStrip_idem (s : String) : pyStrip (pyStrip s) = pyStrip s := by
  simp only [pyStrip]
  congr 1
  exact stripCore_idem s.data

theorem dropWhile_pyLower (l : List Char) :
    (l.map Char.toLower).dropWhile Char.isWhitespace =
      (l.dropWhile Char.isWhitespace).map Char.toLower := by
  rw [List.dropWhile_map]
  have hfun : (Char.isWhitespace ∘ Char.toLower) = Char.isWhitespace :=
    funext isWhitespace_charToLower
  rw [hfun]

theorem rdropWhile_pyLower (l : List Char) :
    List.rdropWhile Char.isWhitespace (l.map Char.toLower) =
      (List.rdropWhile Char.isWhitespace l).map Char.toLower := by
  simp only [List.rdropWhile, ← List.map_reverse, dropWhile_pyLower]

theorem pyStrip_pyLower (s : String) :
    pyStrip (pyLower s) = pyLower (pyStrip s) := by
  simp only [pyStrip, pyLower, dropWhile_pyLower, rdropWhile_pyLower]

/-- Normalisation used for `event` and `action`: lower-casing an already
stripped-and-lowered string, or stripping it again, changes nothing. -/
theorem stripLower_normalized (s : String) :
    pyLower (pyLower (pyStrip s)) = pyLower (pyStrip s) ∧
      pyStrip (pyLower (pyStrip s)) = pyLower (pyStrip s) := by
  constructor
  · exact pyLower_idem _
  · rw [pyStrip_pyLower, pyStrip_idem]


/-! ## Claims -/

/-- C7: locator derivation tries, in priority order with the first match
winning, the explicit CSS selector, then an attribute-equality selector
built from the opaque id with single quotes escaped, then an id-based
lookup from the DOM id, and returns absent when none is present; an action
that requires a target (the generic click) treats absence as a hard
`NoSuchElementError`. -/
theorem locator_resolution_priority (step : InteractionStep) :
    (∀ s, pyTruthyStr step.selector = some s →
      locator_from_step step = some (By.cssSelector, s)) ∧
    (pyTruthyStr step.selector = none →
      ∀ tid, pyTruthyStr step.testId = some tid →
      locator_from_step step =
        some (By.cssSelector,
          "[data-testid='" ++ pyReplaceChar tid '\'' "\\'" ++ "']")) ∧
    (pyTruthyStr step.selector = none → pyTruthyStr step.testId = none →
      ∀ i, pyTruthyStr step.elementId = some i →
      locator_from_step step = some (By.id, i)) ∧
    (pyTruthyStr step.selector = none → pyTruthyStr step.testId = none →
      pyTruthyStr step.elementId = none → locator_from_step step = none) ∧
    (∀ st, locator_from_step step = none →
      click_generic st step = (st, [], some (.noSuchElement step.index))) := by
  refine ⟨?_, ?_, ?_, ?_, ?_⟩
  · intro s hs
    unfold locator_from_step
    rw [hs]
  · intro hs tid ht
    unfold locator_from_step
    rw [hs, ht]
  · intro hs ht i hi
    unfold locator_from_step
    rw [hs, ht, hi]
  · intro hs ht hi
    unfold locator_from_step
    rw [hs, ht, hi]
  · intro st hloc
    unfold click_generic
    rw [hloc]

/-- C7 witness: the four priority stages and the hard-error case at
concrete steps. -/
theorem locator_resolution_priority_witness :
    locator_from_step selStep = some (By.cssSelector, "div.x") ∧
    locator_from_step tidStep =
      some (By.cssSelector, "[data-testid='it\\'s']") ∧
    locator_from_step domStep = some (By.id, "el") ∧
    locator_from_step blankStep = none ∧
    click_generic ⟨none, none⟩ blankStep =
      (⟨none, none⟩, [], some (.noSuchElement 1)) :=
  ⟨(locator_resolution_priority selStep).1 "div.x" rfl,
   (locator_resolution_priority tidStep).2.1 rfl "it's" rfl,
   (locator_resolution_priority domStep).2.2.1 rfl rfl "el" rfl,
   (locator_resolution_priority blankStep).2.2.2.1 rfl rfl rfl,
   (locator_resolution_priority blankStep).2.2.2.2 ⟨none, none⟩ rfl⟩

/-- C10: on every step carrying a truthy CSS selector or opaque id the
full and the simple executor derive the same locator, and the two
derivations differ exactly on the steps whose only locator hint is a DOM
id, where the full executor yields an id-based locator and the simple one
yields none. -/
theorem locator_refinement (step : InteractionStep) :
    (pyTruthyStr step.selector ≠ none ∨ pyTruthyStr step.testId ≠ none →
      s_locator_from_step step = locator_from_step step) ∧
    (s_locator_from_step step ≠ locator_from_step step ↔
      (pyTruthyStr step.selector = none ∧ pyTruthyStr step.testId = none ∧
        ∃ i, pyTruthyStr step.elementId = some i ∧
          locator_from_step step = some (By.id, i) ∧
          s_locator_from_step step = none)) := by
  rcases hs : pyTruthyStr step.selector with _ | s <;>
    rcases ht : pyTruthyStr step.testId with _ | t <;>
    rcases hi : pyTruthyStr step.elementId with _ | i <;>
    simp [locator_from_step, s_locator_from_step, hs, ht, hi]

/-- C10 witness: agreement on a selector step and on an opaque-id step,
and the characterised divergence on a DOM-id-only step. -/
theorem locator_refinement_witness :
    s_locator_from_step selStep = locator_from_step selStep ∧
    s_locator_from_step tidOnlyStep = locator_from_step tidOnlyStep ∧
    s_locator_from_step domStep ≠ locator_from_step domStep :=
  ⟨(locator_refinement selStep).1 (Or.inl (by decide)),
   (locator_refinement tidOnlyStep).1 (Or.inr (by decide)),
   (locator_refinement domStep).2.mpr ⟨rfl, rfl, "el", rfl, rfl, rfl⟩⟩

/-- C6 counterexample: syncing from the collaborator is listed as a
context mutation, but when the collaborator's slot is empty while the
executor still holds a card, `_sync_active_card_from_page` returns with
the two slots disagreeing (one present, one absent). -/
theorem context_mirror_counterexample :
    sync_active_card_from_page env0 ⟨some 0, none⟩ = ⟨some 0, none⟩ ∧
    ¬ cardsAgree (sync_active_card_from_page env0 ⟨some 0, none⟩) := by
  refine ⟨rfl, ?_⟩
  intro h
  rw [cardsAgree] at h
  exact Option.noConfusion h

/-- C6 amended: after `_set_active_card` and after a successful delete the
executor's slot and the collaborator's slot agree (same element or both
absent); after `_sync_active_card_from_page` they agree whenever the
collaborator's slot holds a live element, and otherwise the sync leaves
the state unchanged (so a pre-existing disagreement persists). -/
theorem context_mirror_amended :
    (∀ st c, cardsAgree (set_active_card st c)) ∧
    (∀ env st step st' tr,
      handle_click_delete env st step = (st', tr, none) → cardsAgree st') ∧
    (∀ env st c, st.pageCard = some c → env.alive c = true →
      cardsAgree (sync_active_card_from_page env st)) ∧
    (∀ env st, st.pageCard = none →
      sync_active_card_from_page env st = st) ∧
    (∀ env st c, st.pageCard = some c → env.alive c = false →
      sync_active_card_from_page env st = st) := by
  refine ⟨?_, ?_, ?_, ?_, ?_⟩
  · intro st c
    rfl
  · intro env st step st' tr h
    unfold handle_click_delete at h
    rcases hr : resolve_card env st step true with ⟨st1, c?, e?⟩
    rw [hr] at h
    cases e? with
    | none =>
      simp only [Prod.mk.injEq] at h
      rw [← h.1]
      rfl
    | some e => simp at h
  · intro env st c hpc ha
    unfold sync_active_card_from_page
    rw [hpc]
    simp [ha, cardsAgree, hpc]
  · intro env st hpc
    unfold sync_active_card_from_page
    rw [hpc]
  · intro env st c hpc ha
    unfold sync_active_card_from_page
    rw [hpc]
    simp [ha]

/-- C6 amended witness: the agreement after a concrete set, a concrete
successful delete, and a concrete live sync, and the no-op behaviour of a
sync from an empty collaborator slot. -/
theorem context_mirror_amended_witness :
    cardsAgree (set_active_card ⟨none, none⟩ 4) ∧
    cardsAgree (⟨none, none⟩ : ExecState) ∧
    cardsAgree (sync_active_card_from_page env0 ⟨none, some 5⟩) ∧
    sync_active_card_from_page env0 ⟨some 1, none⟩ = ⟨some 1, none⟩ :=
  ⟨context_mirror_amended.1 ⟨none, none⟩ 4,
   context_mirror_amended.2.1 env0 ⟨none, some 5⟩ blankStep ⟨none, none⟩
     [.pageOp "sql_manager_page.click_query_delete"] rfl,
   context_mirror_amended.2.2.1 env0 ⟨none, some 5⟩ 5 rfl rfl,
   context_mirror_amended.2.2.2.1 env0 ⟨some 1, none⟩ rfl⟩

/-- C5: a successful delete clears both the executor's tracked context
slot and the collaborator's mirrored slot, and from that cleared state a
required context resolution fails with `ContextNotFoundError` unless the
step's element resolves to a `.query-card` ancestor or the query /
connection names on the step make the collaborator's expansion succeed. -/
theorem delete_clears_context (env : Env) (step : InteractionStep) :
    (∀ st st' tr, handle_click_delete env st step = (st', tr, none) →
      st'.activeCard = none ∧ st'.pageCard = none) ∧
    ((∀ e, find_element env step = some e → env.closestQueryCard e = none) →
      (∀ qn cn, env.expandCard qn cn = none) →
      resolve_card env ⟨none, none⟩ step true =
        (⟨none, none⟩, none, some (.cannotResolveCard step.index))) ∧
    (∀ e c, find_element env step = some e →
      env.closestQueryCard e = some c →
      resolve_card env ⟨none, none⟩ step true =
        (⟨some c, some c⟩, some c, none)) ∧
    (∀ c, find_element env step = none →
      (pyStrip (step.rawQueryName.getD "") ≠ "" ∨
        pyStrip (step.connectionName.getD "") ≠ "") →
      env.expandCard
          (if pyStrip (step.rawQueryName.getD "") = "" then none
           else some (pyStrip (step.rawQueryName.getD "")))
          (if pyStrip (step.connectionName.getD "") = "" then none
           else some (pyStrip (step.connectionName.getD ""))) = some c →
      resolve_card env ⟨none, none⟩ step true =
        (⟨some c, some c⟩, some c, none)) := by
  have hstart : resolve_card env ⟨none, none⟩ step true =
      resolve_card_element env ⟨none, none⟩ step true := rfl
  refine ⟨?_, ?_, ?_, ?_⟩
  · intro st st' tr h
    unfold handle_click_delete at h
    rcases hr : resolve_card env st step true with ⟨st1, c?, e?⟩
    rw [hr] at h
    cases e? with
    | none =>
      simp only [Prod.mk.injEq] at h
      rw [← h.1]
      exact ⟨rfl, rfl⟩
    | some e => simp at h
  · intro hclosest hexpand
    rw [hstart]
    unfold resolve_card_element
    rcases hf : find_element env step with _ | e
    · unfold resolve_card_names
      simp [hexpand, ite_self]
    · simp only [hclosest e hf]
      unfold resolve_card_names
      simp [hexpand, ite_self]
  · intro e c hf hc
    rw [hstart]
    unfold resolve_card_element
    simp only [hf]
    rw [hc]
    rfl
  · intro c hf hne hexp
    rw [hstart]
    unfold resolve_card_element
    simp only [hf]
    unfold resolve_card_names
    dsimp only
    rw [if_pos hne, hexp]
    rfl

/-- C5 witness: a concrete successful delete leaves both slots cleared;
from the cleared state a required resolution fails when nothing resolves,
succeeds via the element route, and succeeds via the name route. -/
theorem delete_clears_context_witness :
    ((⟨none, none⟩ : ExecState).activeCard = none ∧
      (⟨none, none⟩ : ExecState).pageCard = none) ∧
    resolve_card env0 ⟨none, none⟩ blankStep true =
      (⟨none, none⟩, none, some (.cannotResolveCard 1)) ∧
    resolve_card envFind ⟨none, none⟩ selStep true =
      (⟨some 3, some 3⟩, some 3, none) ∧
    resolve_card envExpand ⟨none, none⟩ delStep true =
      (⟨some 7, some 7⟩, some 7, none) :=
  ⟨(delete_clears_context env0 blankStep).1 ⟨none, some 5⟩ ⟨none, none⟩
     [.pageOp "sql_manager_page.click_query_delete"] rfl,
   (delete_clears_context env0 blankStep).2.1
     (fun e h => Option.noConfusion h) (fun _ _ => rfl),
   (delete_clears_context envFind selStep).2.2.1 2 3 rfl rfl,
   (delete_clears_context envExpand delStep).2.2.2 7 rfl
     (Or.inl (by decide)) rfl⟩

/-- The prefix probe of the simple executor equals a first-match search
over the declared route list. -/
theorem s_probe_eq_find (env : Env) (st : ExecState) (step : InteractionStep)
    (tid : String) :
    ∀ routes : List (String × SRoute),
      s_probe env st step tid routes =
        (routes.find? (fun r => pyStartsWith tid r.1)).map
          (fun r => r.2 env st step)
  | [] => rfl
  | (p, h) :: rest => by
    unfold s_probe
    by_cases hp : pyStartsWith tid p = true
    · rw [if_pos hp,
        List.find?_cons_of_pos
          (p := fun r : String × SRoute => pyStartsWith tid r.1) _ hp]
      rfl
    · rw [if_neg hp,
        List.find?_cons_of_neg
          (p := fun r : String × SRoute => pyStartsWith tid r.1) _
          (by simpa using hp)]
      exact s_probe_eq_find env st step tid rest

/-- C4: an opaque id present in the exact-match table dispatches through
the exact entry even when it also matches a prefix family (full executor);
in the simple executor the exact table always wins, and when the exact
table misses, the prefix routes are probed in their declared order with
the first matching prefix's handler running. -/
theorem route_priority (env : Env) (st : ExecState) (step : InteractionStep) :
    (∀ tid act, pyTruthyStr step.testId = some tid →
      exact_click_routes.lookup tid = some act →
      (pyStartsWith tid "main-" = true ∨
        pyStartsWith tid "sql-home-open-" = true) →
      dispatch_click_route env step = some [act]) ∧
    (∀ tid h, pyTruthyStr step.testId = some tid →
      simple_exact_routes.lookup tid = some h →
      s_dispatch_by_test_id env st step = some (h env st step)) ∧
    (∀ tid, pyTruthyStr step.testId = some tid →
      simple_exact_routes.lookup tid = none →
      s_dispatch_by_test_id env st step =
        (simple_prefix_routes.find? (fun r => pyStartsWith tid r.1)).map
          (fun r => r.2 env st step)) := by
  refine ⟨?_, ?_, ?_⟩
  · intro tid act ht hl _
    unfold dispatch_click_route
    simp only [ht]
    rw [hl]
  · intro tid h ht hl
    unfold s_dispatch_by_test_id
    simp only [ht]
    rw [hl]
  · intro tid ht hl
    unfold s_dispatch_by_test_id
    simp only [ht]
    rw [hl]
    exact s_probe_eq_find env st step tid simple_prefix_routes

/-- C4 witness: `main-sql-mode` matches both the exact table and the
`main-` family (whose reflective call would succeed in `envRefl`), yet the
exact route runs; an exact simple route runs; and a prefix-only id runs
the first declared matching prefix handler. -/
theorem route_priority_witness :
    dispatch_click_route envRefl mainStep =
      some [Act.pageOp "plugin_page.click_main_sql_mode"] ∧
    s_dispatch_by_test_id env0 ⟨none, none⟩ exactSimpleStep =
      some (⟨none, none⟩, [Act.pageOp "sql_manager_page.minimize"], none) ∧
    s_dispatch_by_test_id env0 ⟨none, none⟩ connStep =
      some (⟨none, none⟩, [Act.selectConnection "ora"], none) :=
  ⟨(route_priority envRefl ⟨none, none⟩ mainStep).1 "main-sql-mode"
     (Act.pageOp "plugin_page.click_main_sql_mode") rfl rfl
     (Or.inl (by decide)),
   (route_priority env0 ⟨none, none⟩ exactSimpleStep).2.1 "sql-manager-minimize"
     (fun _ st _ => (st, [.pageOp "sql_manager_page.minimize"], none)) rfl rfl,
   (route_priority env0 ⟨none, none⟩ connStep).2.2 "cm-tree-connection-1"
     rfl rfl⟩

/-- C3: a step whose `(event, action)` pair is absent from the handler map
enters the unmapped-action fallback, where a keyboard event is skipped
with no effect, a click event performs a generic click (failing with
`NoSuchElementError` when no locator can be built) followed by a context
remember, an input/change event with a non-absent value performs the
generic value-set, a codemirror-change event with a non-absent value
performs the generic rich-editor injection, and any other step fails with
`NoHandlerError` naming the step's index and event/action kind. -/
theorem unmapped_action_fallback (env : Env) (st : ExecState)
    (step : InteractionStep)
    (hkey : (step.event, step.action) ∉ handler_keys) :
    execute_step env st step = handle_unmapped_action env st step ∧
    (step.event ∈ KEYBOARD_EVENTS →
      handle_unmapped_action env st step = (st, [], none)) ∧
    (step.event = "click" →
      handle_unmapped_action env st step = click_then_remember env st step ∧
      (locator_from_step step = none →
        handle_unmapped_action env st step =
          (st, [], some (.noSuchElement step.index))) ∧
      (∀ loc, locator_from_step step = some loc →
        handle_unmapped_action env st step =
          (remember_active_card env st step, [.clickLocator loc], none))) ∧
    ((step.event = "input" ∨ step.event = "change") → step.value ≠ none →
      handle_unmapped_action env st step = set_value_generic env st step) ∧
    (step.event = "codemirror-change" → step.value ≠ none →
      handle_unmapped_action env st step = set_codemirror_generic env st step) ∧
    (step.event ∉ KEYBOARD_EVENTS → step.event ≠ "click" →
      step.event ≠ "input" → step.event ≠ "change" →
      step.event ≠ "codemirror-change" →
      handle_unmapped_action env st step =
        (st, [], some (.noHandler step.index step.event step.action))) := by
  unfold handler_keys at hkey
  simp only [List.mem_cons, List.not_mem_nil, or_false, not_or] at hkey
  obtain ⟨h1, h2, h3, h4, h5, h6, h7⟩ := hkey
  refine ⟨?_, ?_, ?_, ?_, ?_, ?_⟩
  · unfold execute_step
    rw [if_neg h1, if_neg h2, if_neg h3, if_neg h4, if_neg h5, if_neg h6,
      if_neg h7]
  · intro hk
    unfold handle_unmapped_action
    rw [if_pos hk]
  · intro hclick
    have hnk : step.event ∉ KEYBOARD_EVENTS := by
      rw [hclick]
      decide
    have hbase : handle_unmapped_action env st step =
        click_then_remember env st step := by
      unfold handle_unmapped_action
      rw [if_neg hnk, if_pos hclick]
    refine ⟨hbase, ?_, ?_⟩
    · intro hloc
      rw [hbase]
      unfold click_then_remember click_generic
      rw [hloc]
    · intro loc hloc
      rw [hbase]
      unfold click_then_remember click_generic
      rw [hloc]
  · intro hin hv
    have hnk : step.event ∉ KEYBOARD_EVENTS := by
      rcases hin with h | h <;> rw [h] <;> decide
    have hnc : ¬ step.event = "click" := by
      rcases hin with h | h <;> rw [h] <;> decide
    unfold handle_unmapped_action
    rw [if_neg hnk, if_neg hnc, if_pos ⟨hin, hv⟩]
  · intro hcm hv
    have hnk : step.event ∉ KEYBOARD_EVENTS := by
      rw [hcm]
      decide
    have hnc : ¬ step.event = "click" := by
      rw [hcm]
      decide
    have hni : ¬ ((step.event = "input" ∨ step.event = "change") ∧
        step.value ≠ none) := by
      rintro ⟨h | h, -⟩ <;> rw [hcm] at h <;> exact absurd h (by decide)
    unfold handle_unmapped_action
    rw [if_neg hnk, if_neg hnc, if_neg hni, if_pos ⟨hcm, hv⟩]
  · intro hnk hnc hni hnch hncm
    have hni2 : ¬ ((step.event = "input" ∨ step.event = "change") ∧
        step.value ≠ none) := by
      rintro ⟨h | h, -⟩ <;> [exact hni h; exact hnch h]
    have hncm2 : ¬ (step.event = "codemirror-change" ∧ step.value ≠ none) := by
      rintro ⟨h, -⟩
      exact hncm h
    unfold handle_unmapped_action
    rw [if_neg hnk, if_neg hnc, if_neg hni2, if_neg hncm2]

/-- C3 witness: the five fallback outcomes at concrete unmapped steps. -/
theorem unmapped_action_fallback_witness :
    execute_step env0 ⟨none, none⟩ kbStep = (⟨none, none⟩, [], none) ∧
    execute_step env0 ⟨none, none⟩ oddClickStep =
      (⟨none, none⟩, [], some (.noSuchElement 1)) ∧
    execute_step env0 ⟨none, none⟩ oddClickSelStep =
      (remember_active_card env0 ⟨none, none⟩ oddClickSelStep,
       [.clickLocator (By.cssSelector, "div.x")], none) ∧
    execute_step env0 ⟨none, none⟩ oddInputStep =
      set_value_generic env0 ⟨none, none⟩ oddInputStep ∧
    execute_step env0 ⟨none, none⟩ oddCmStep =
      set_codemirror_generic env0 ⟨none, none⟩ oddCmStep ∧
    execute_step env0 ⟨none, none⟩ oddStep =
      (⟨none, none⟩, [], some (.noHandler 1 "submit" "x")) :=
  ⟨((unmapped_action_fallback env0 ⟨none, none⟩ kbStep (by decide)).1).trans
     ((unmapped_action_fallback env0 ⟨none, none⟩ kbStep (by decide)).2.1
       (by decide)),
   ((unmapped_action_fallback env0 ⟨none, none⟩ oddClickStep (by decide)).1).trans
     (((unmapped_action_fallback env0 ⟨none, none⟩ oddClickStep
         (by decide)).2.2.1 rfl).2.1 rfl),
   ((unmapped_action_fallback env0 ⟨none, none⟩ oddClickSelStep
       (by decide)).1).trans
     (((unmapped_action_fallback env0 ⟨none, none⟩ oddClickSelStep
         (by decide)).2.2.1 rfl).2.2 (By.cssSelector, "div.x") rfl),
   ((unmapped_action_fallback env0 ⟨none, none⟩ oddInputStep (by decide)).1).trans
     ((unmapped_action_fallback env0 ⟨none, none⟩ oddInputStep
         (by decide)).2.2.2.1 (Or.inl rfl) (by decide)),
   ((unmapped_action_fallback env0 ⟨none, none⟩ oddCmStep (by decide)).1).trans
     ((unmapped_action_fallback env0 ⟨none, none⟩ oddCmStep
         (by decide)).2.2.2.2.1 rfl (by decide)),
   ((unmapped_action_fallback env0 ⟨none, none⟩ oddStep (by decide)).1).trans
     ((unmapped_action_fallback env0 ⟨none, none⟩ oddStep
         (by decide)).2.2.2.2.2 (by decide) (by decide) (by decide) (by decide)
       (by decide))⟩

/-- C1: the click/activate handler tries the resolution stages in order,
stopping at the first that applies: (1) opaque-id route dispatch; (2) the
connection-tree-item recognizer, activating by the resolved connection
name (explicit field, else display text with glyph markers and zero-width
characters stripped) or generic-clicking when no name resolves; (3) the
query-delete-button recognizer, delegating to the delete handler; (4) the
export-destination-option recognizer, selecting the inferred visible text
or generic-clicking when nothing infers; (5) the code-editor-target
recognizer, which may fall through; (6) otherwise a generic click followed
by the context remember. -/
theorem click_activate_layering (env : Env) (st : ExecState)
    (step : InteractionStep) :
    (∀ tr, dispatch_click_route env step = some tr →
      handle_click_activate env st step =
        (sync_active_card_from_page env st, tr, none)) ∧
    (dispatch_click_route env step = none → is_connection_item step = true →
      handle_click_activate env st step = activate_connection st step ∧
      (resolved_connection_name step ≠ "" →
        activate_connection st step =
          (st, [.selectConnection (resolved_connection_name step)], none)) ∧
      (resolved_connection_name step = "" →
        activate_connection st step = click_generic st step)) ∧
    (dispatch_click_route env step = none → is_connection_item step = false →
      is_query_delete_button step = true →
      handle_click_activate env st step = handle_click_delete env st step) ∧
    (dispatch_click_route env step = none → is_connection_item step = false →
      is_query_delete_button step = false →
      is_export_destination_option step = true →
      handle_click_activate env st step =
        activate_export_destination_option st step ∧
      (∀ t, infer_export_destination_visible_text step = some t →
        activate_export_destination_option st step =
          (st, [.selectExportDestination t], none)) ∧
      (infer_export_destination_visible_text step = none →
        activate_export_destination_option st step = click_generic st step)) ∧
    (dispatch_click_route env step = none → is_connection_item step = false →
      is_query_delete_button step = false →
      is_export_destination_option step = false →
      is_codemirror_target step = true →
      ∀ tr st1, activate_codemirror env st step = (true, tr, st1) →
        handle_click_activate env st step = (st1, tr, none)) ∧
    (dispatch_click_route env step = none → is_connection_item step = false →
      is_query_delete_button step = false →
      is_export_destination_option step = false →
      is_codemirror_target step = false →
      handle_click_activate env st step = click_then_remember env st step) ∧
    (dispatch_click_route env step = none → is_connection_item step = false →
      is_query_delete_button step = false →
      is_export_destination_option step = false →
      is_codemirror_target step = true →
      ∀ tr st1, activate_codemirror env st step = (false, tr, st1) →
        handle_click_activate env st step =
          (let r := click_then_remember env st1 step
           (r.1, tr ++ r.2.1, r.2.2))) := by
  refine ⟨?_, ?_, ?_, ?_, ?_, ?_, ?_⟩
  · intro tr hroute
    unfold handle_click_activate
    rw [hroute]
  · intro hroute hconn
    have hbase : handle_click_activate env st step =
        activate_connection st step := by
      unfold handle_click_activate
      rw [hroute, if_pos hconn]
    refine ⟨hbase, ?_, ?_⟩
    · intro hne
      unfold activate_connection
      rw [if_pos hne]
    · intro heq
      unfold activate_connection
      rw [if_neg (fun hc => hc heq)]
  · intro hroute hconn hdel
    unfold handle_click_activate
    rw [hroute, if_neg (by simp [hconn]), if_pos hdel]
  · intro hroute hconn hdel hexp
    have hbase : handle_click_activate env st step =
        activate_export_destination_option st step := by
      unfold handle_click_activate
      rw [hroute, if_neg (by simp [hconn]), if_neg (by simp [hdel]),
        if_pos hexp]
    refine ⟨hbase, ?_, ?_⟩
    · intro t ht
      unfold activate_export_destination_option
      rw [ht]
    · intro ht
      unfold activate_export_destination_option
      rw [ht]
  · intro hroute hconn hdel hexp hcm tr st1 hact
    unfold handle_click_activate
    rw [hroute, if_neg (by simp [hconn]), if_neg (by simp [hdel]),
      if_neg (by simp [hexp])]
    dsimp only
    rw [if_pos hcm, hact]
  · intro hroute hconn hdel hexp hcm
    unfold handle_click_activate
    rw [hroute, if_neg (by simp [hconn]), if_neg (by simp [hdel]),
      if_neg (by simp [hexp])]
    dsimp only
    rw [if_neg (by simp [hcm])]
    dsimp only
    rcases h2 : click_then_remember env st step with ⟨st2, tr2, e2⟩
    simp [h2]
  · intro hroute hconn hdel hexp hcm tr st1 hact
    unfold handle_click_activate
    rw [hroute, if_neg (by simp [hconn]), if_neg (by simp [hdel]),
      if_neg (by simp [hexp])]
    dsimp only
    rw [if_pos hcm, hact]

/-- C1 witness: each resolution stage exercised at a concrete step — route
dispatch, connection activation by explicit name, delete delegation,
export-option selection by `-file` suffix inference, a successful
code-editor activation, the plain generic-click stage, and the
code-editor fall-through. -/
theorem click_activate_layering_witness :
    handle_click_activate envRefl ⟨none, none⟩ mainStep =
      (⟨none, none⟩, [.pageOp "plugin_page.click_main_sql_mode"], none) ∧
    handle_click_activate env0 ⟨none, none⟩ connStep =
      activate_connection ⟨none, none⟩ connStep ∧
    activate_connection ⟨none, none⟩ connStep =
      (⟨none, none⟩, [.selectConnection "ora"], none) ∧
    handle_click_activate env0 ⟨none, none⟩ delBtnStep =
      handle_click_delete env0 ⟨none, none⟩ delBtnStep ∧
    handle_click_activate env0 ⟨none, none⟩ exportOptStep =
      (⟨none, none⟩, [.selectExportDestination "В новый файл"], none) ∧
    handle_click_activate envChild ⟨none, some 5⟩ cmTargetStep =
      (⟨some 5, some 5⟩, [.jsClick 9], none) ∧
    handle_click_activate env0 ⟨none, none⟩ tidOnlyStep =
      click_then_remember env0 ⟨none, none⟩ tidOnlyStep ∧
    handle_click_activate env0 ⟨none, none⟩ cmTargetStep =
      (remember_active_card env0 ⟨none, none⟩ cmTargetStep,
       [.clickLocator (By.cssSelector, "[data-testid='sql-codemirror-1']")],
       none) := by
  refine ⟨?_, ?_, ?_, ?_, ?_, ?_, ?_, ?_⟩
  · exact (click_activate_layering envRefl ⟨none, none⟩ mainStep).1
      [.pageOp "plugin_page.click_main_sql_mode"] rfl
  · exact ((click_activate_layering env0 ⟨none, none⟩ connStep).2.1
      rfl rfl).1
  · exact ((click_activate_layering env0 ⟨none, none⟩ connStep).2.1
      rfl rfl).2.1 (by decide)
  · exact (click_activate_layering env0 ⟨none, none⟩ delBtnStep).2.2.1
      rfl rfl rfl
  · exact ((click_activate_layering env0 ⟨none, none⟩ exportOptStep).2.2.2.1
      rfl rfl rfl rfl).1.trans
      (((click_activate_layering env0 ⟨none, none⟩ exportOptStep).2.2.2.1
        rfl rfl rfl rfl).2.1 "В новый файл" rfl)
  · exact (click_activate_layering envChild ⟨none, some 5⟩ cmTargetStep).2.2.2.2.1
      rfl rfl rfl rfl rfl [.jsClick 9] ⟨some 5, some 5⟩ rfl
  · exact (click_activate_layering env0 ⟨none, none⟩ tidOnlyStep).2.2.2.2.2.1
      rfl rfl rfl rfl rfl
  · exact (click_activate_layering env0 ⟨none, none⟩ cmTargetStep).2.2.2.2.2.2
      rfl rfl rfl rfl rfl [] ⟨none, none⟩ rfl

/-- One step of `runOutcomes`, written with projections (definitional by
structure eta). -/
theorem runOutcomes_cons (env : Env) (st : ExecState)
    (step : InteractionStep) (rest : List InteractionStep) :
    runOutcomes env st (step :: rest) =
      (step, (execute_step env st step).2.2, (execute_step env st step).1) ::
        runOutcomes env (execute_step env st step).1 rest := rfl

/-- One step of `runFinalState`. -/
theorem runFinalState_cons (env : Env) (st : ExecState)
    (step : InteractionStep) (rest : List InteractionStep) :
    runFinalState env st (step :: rest) =
      runFinalState env (execute_step env st step).1 rest := rfl

/-- One step of `replay_steps` when the step does not raise. -/
theorem replay_steps_cons_none {env : Env} {b : Bool} {st st1 : ExecState}
    {step : InteractionStep} {tr : List Act}
    (rest : List InteractionStep)
    (he : execute_step env st step = (st1, tr, none)) :
    replay_steps env b st (step :: rest) = replay_steps env b st1 rest := by
  have h0 : replay_steps env b st (step :: rest) =
      (match execute_step env st step with
       | (st1, _, none) => replay_steps env b st1 rest
       | (st1, _, some e) =>
         if b then .error (mkAbort step e)
         else (replay_steps env b st1 rest).map
           (fun p => (⟨step, e⟩ :: p.1, p.2))) := rfl
  rw [h0, he]

/-- One step of `replay_steps` when the step raises. -/
theorem replay_steps_cons_some {env : Env} {b : Bool} {st st1 : ExecState}
    {step : InteractionStep} {tr : List Act} {e : Err}
    (rest : List InteractionStep)
    (he : execute_step env st step = (st1, tr, some e)) :
    replay_steps env b st (step :: rest) =
      (if b then .error (mkAbort step e)
       else (replay_steps env b st1 rest).map
         (fun p => (⟨step, e⟩ :: p.1, p.2))) := by
  have h0 : replay_steps env b st (step :: rest) =
      (match execute_step env st step with
       | (st1, _, none) => replay_steps env b st1 rest
       | (st1, _, some e) =>
         if b then .error (mkAbort step e)
         else (replay_steps env b st1 rest).map
           (fun p => (⟨step, e⟩ :: p.1, p.2))) := rfl
  rw [h0, he]

/-- A continue-on-error run returns the failures read off the per-step
outcomes, with the threaded final state. -/
theorem replay_continue_eq (env : Env) (steps : List InteractionStep) :
    ∀ st, replay_steps env false st steps =
      .ok (failuresOf (runOutcomes env st steps),
        runFinalState env st steps) := by
  induction steps with
  | nil => intro st; rfl
  | cons step rest ih =>
    intro st
    rcases he : execute_step env st step with ⟨st1, tr, e?⟩
    rw [runOutcomes_cons, runFinalState_cons, he]
    dsimp only
    cases e? with
    | none =>
      rw [replay_steps_cons_none rest he]
      exact ih st1
    | some e =>
      rw [replay_steps_cons_some rest he, ih st1]
      rfl

/-- The collected failure list counts exactly the outcomes that raised. -/
theorem failuresOf_length :
    ∀ outs, (failuresOf outs).length =
      outs.countP (fun o => o.2.1.isSome) := by
  intro outs
  induction outs with
  | nil => rfl
  | cons o rest ih =>
    rcases o with ⟨s, e?, st1⟩
    cases e? <;>
      simp [failuresOf, List.filterMap_cons, List.countP_cons,
        failuresOf] at ih ⊢ <;> omega

/-- The collected failure list is empty exactly when no outcome raised. -/
theorem failuresOf_eq_nil :
    ∀ outs, failuresOf outs = [] ↔ ∀ o ∈ outs, o.2.1 = none := by
  intro outs
  induction outs with
  | nil => simp [failuresOf]
  | cons o rest ih =>
    rcases o with ⟨s, e?, st1⟩
    cases e? with
    | none =>
      simp only [failuresOf, List.filterMap_cons] at ih ⊢
      simp [ih]
    | some e =>
      simp [failuresOf, List.filterMap_cons]

/-- A fail-fast run over steps none of which raises succeeds with an empty
failure list. -/
theorem replay_failfast_ok (env : Env) (steps : List InteractionStep) :
    ∀ st, (∀ o ∈ runOutcomes env st steps, o.2.1 = none) →
      replay_steps env true st steps =
        .ok ([], runFinalState env st steps) := by
  induction steps with
  | nil => intro st _; rfl
  | cons step rest ih =>
    intro st h
    rcases he : execute_step env st step with ⟨st1, tr, e?⟩
    have h0 : e? = none := by
      have hm := h (step, e?, st1)
        (by rw [runOutcomes_cons, he]; exact List.mem_cons_self _ _)
      exact hm
    subst h0
    rw [replay_steps_cons_none rest he, runFinalState_cons, he]
    dsimp only
    apply ih st1
    intro o ho
    exact h o (by rw [runOutcomes_cons, he]; exact List.mem_cons_of_mem _ ho)

/-- A fail-fast run aborts at the first raising step, wrapping that step's
identifying fields and its error. -/
theorem replay_failfast_error (env : Env) :
    ∀ (steps : List InteractionStep) (st : ExecState) pre s e st1 rest1,
      runOutcomes env st steps = pre ++ (s, some e, st1) :: rest1 →
      (∀ o ∈ pre, o.2.1 = none) →
      replay_steps env true st steps = .error (mkAbort s e) := by
  intro steps
  induction steps with
  | nil =>
    intro st pre s e st1 rest1 h _
    rw [show runOutcomes env st [] = [] from rfl] at h
    cases pre <;> simp at h
  | cons step rest ih =>
    intro st pre s e st1 rest1 h hpre
    rcases he : execute_step env st step with ⟨st2, tr, e?⟩
    have hout : runOutcomes env st (step :: rest) =
        (step, e?, st2) :: runOutcomes env st2 rest := by
      rw [runOutcomes_cons, he]
    rw [hout] at h
    cases pre with
    | nil =>
      simp only [List.nil_append, List.cons.injEq, Prod.mk.injEq] at h
      obtain ⟨⟨hs, he2, -⟩, -⟩ := h
      subst hs
      subst he2
      rw [replay_steps_cons_some rest he]
      rfl
    | cons p pre2 =>
      simp only [List.cons_append, List.cons.injEq] at h
      obtain ⟨hp, htail⟩ := h
      have hpn : e? = none := by
        have hmem := hpre p (List.mem_cons_self _ _)
        rw [← hp] at hmem
        exact hmem
      subst hpn
      rw [replay_steps_cons_none rest he]
      exact ih st2 pre2 s e st1 rest1 htail
        (fun o ho => hpre o (List.mem_cons_of_mem _ ho))

/-- C2: continue-on-error replay never propagates a step's exception — it
returns the failure list pairing each raising step with its error in step
order, whose length is the number of raising steps and which is empty
exactly when no step raises; fail-fast replay (the default) aborts on the
first raising step with an error wrapping the step's index, seq,
event/action and testId. -/
theorem replay_error_modes (env : Env) (st : ExecState)
    (steps : List InteractionStep) :
    (∃ p, replay_steps env false st steps = .ok p) ∧
    replay_steps env false st steps =
      .ok (failuresOf (runOutcomes env st steps),
        runFinalState env st steps) ∧
    (failuresOf (runOutcomes env st steps)).length =
      (runOutcomes env st steps).countP (fun o => o.2.1.isSome) ∧
    (failuresOf (runOutcomes env st steps) = [] ↔
      ∀ o ∈ runOutcomes env st steps, o.2.1 = none) ∧
    (∀ pre s e st1 rest1,
      runOutcomes env st steps = pre ++ (s, some e, st1) :: rest1 →
      (∀ o ∈ pre, o.2.1 = none) →
      replay_steps env true st steps = .error (mkAbort s e)) ∧
    ((∀ o ∈ runOutcomes env st steps, o.2.1 = none) →
      replay_steps env true st steps =
        .ok ([], runFinalState env st steps)) :=
  ⟨⟨_, replay_continue_eq env steps st⟩,
   replay_continue_eq env steps st,
   failuresOf_length _,
   failuresOf_eq_nil _,
   fun pre s e st1 rest1 h hpre =>
     replay_failfast_error env steps st pre s e st1 rest1 h hpre,
   replay_failfast_ok env steps st⟩

/-- C2 witness: a concrete run with one raising step returns exactly one
paired failure in continue mode and aborts with the wrapped abort record
in fail-fast mode; a run whose only step succeeds returns an empty
failure list in both modes. -/
theorem replay_error_modes_witness :
    replay_steps env0 false ⟨none, none⟩ [kbStep, oddStep] =
      .ok ([⟨oddStep, .noHandler 1 "submit" "x"⟩], ⟨none, none⟩) ∧
    replay_steps env0 true ⟨none, none⟩ [kbStep, oddStep] =
      .error ⟨1, none, "submit", "x", none, .noHandler 1 "submit" "x"⟩ ∧
    replay_steps env0 false ⟨none, none⟩ [kbStep] = .ok ([], ⟨none, none⟩) ∧
    replay_steps env0 true ⟨none, none⟩ [kbStep] =
      .ok ([], ⟨none, none⟩) :=
  ⟨(replay_error_modes env0 ⟨none, none⟩ [kbStep, oddStep]).2.1,
   (replay_error_modes env0 ⟨none, none⟩ [kbStep, oddStep]).2.2.2.2.1
     [(kbStep, none, ⟨none, none⟩)] oddStep (.noHandler 1 "submit" "x")
     ⟨none, none⟩ [] rfl
     (by intro o ho; rw [List.mem_singleton] at ho; subst ho; rfl),
   (replay_error_modes env0 ⟨none, none⟩ [kbStep]).2.1,
   (replay_error_modes env0 ⟨none, none⟩ [kbStep]).2.2.2.2.2
     (by
       intro o ho
       have hrun : runOutcomes env0 ⟨none, none⟩ [kbStep] =
           [(kbStep, none, ⟨none, none⟩)] := rfl
       rw [hrun, List.mem_singleton] at ho
       subst ho
       rfl)⟩

/-- A string produced by `normField` is lower-cased and trimmed. -/
theorem normField_normalized {raw : RawRecord} {k s : String}
    (h : normField raw k = some s) : pyLower s = s ∧ pyStrip s = s := by
  unfold normField at h
  rcases hg : pyGetOrEmpty raw k with _ | b | n | s0 | ne | ne <;> rw [hg] at h
  · exact absurd h (by simp)
  · exact absurd h (by simp)
  · exact absurd h (by simp)
  · injection h with h
    subst h
    exact ⟨(stripLower_normalized s0).1, (stripLower_normalized s0).2⟩
  · exact absurd h (by simp)
  · exact absurd h (by simp)

/-- C9 counterexample: a flat mapping whose `event` value is the number 1
makes `from_raw` raise (`.strip()` on an `int` — `AttributeError`), so
parsing does not succeed on every flat mapping. -/
theorem from_raw_nonstring_event :
    from_raw [("event", JVal.jnum 1)] 1 = none := rfl

/-- C9 amended: for a flat mapping whose `event` and `action` values
normalise (they are absent, `null`, falsy, or strings — the only values
`.strip().lower()` accepts), parsing succeeds regardless of unknown or
extra fields, preserves the full mapping in `raw`, stores the normalised
`event`/`action` (always lower-cased and whitespace-trimmed, absent values
becoming the empty string), and promotes the remaining fields verbatim. -/
theorem from_raw_parse (raw : RawRecord) (idx : Nat) (s_ev s_ac : String)
    (hev : normField raw "event" = some s_ev)
    (hac : normField raw "action" = some s_ac) :
    ∃ stp, from_raw raw idx = some stp ∧
      stp.raw = raw ∧ stp.index = idx ∧
      stp.event = s_ev ∧ stp.action = s_ac ∧
      pyLower stp.event = stp.event ∧ pyStrip stp.event = stp.event ∧
      pyLower stp.action = stp.action ∧ pyStrip stp.action = stp.action ∧
      (pyGet raw "event" = .jnull → stp.event = "") ∧
      (pyGet raw "action" = .jnull → stp.action = "") ∧
      stp.testId = pyGet raw "testId" ∧ stp.value = pyGet raw "value" := by
  have hnev := normField_normalized hev
  have hnac := normField_normalized hac
  unfold from_raw
  rw [hev, hac]
  refine ⟨_, rfl, rfl, rfl, rfl, rfl, hnev.1, hnev.2, hnac.1, hnac.2,
    ?_, ?_, rfl, rfl⟩
  · intro hnull
    unfold normField pyGetOrEmpty at hev
    rw [hnull] at hev
    simp only [JVal.truthy, Bool.false_eq_true, if_false] at hev
    injection hev with hev
    exact hev.symm
  · intro hnull
    unfold normField pyGetOrEmpty at hac
    rw [hnull] at hac
    simp only [JVal.truthy, Bool.false_eq_true, if_false] at hac
    injection hac with hac
    exact hac.symm

/-- C9 amended witness: a mapping with a padded mixed-case event, no
action, and an extra numeric field parses, keeps the extra field in the
raw mapping, and normalises `event` to `"click"` and `action` to `""`. -/
theorem from_raw_parse_witness :
    ∃ stp, from_raw [("event", JVal.jstr " Click "), ("extra", JVal.jnum 5)] 3
        = some stp ∧
      stp.raw = [("event", JVal.jstr " Click "), ("extra", JVal.jnum 5)] ∧
      stp.event = "click" ∧ stp.action = "" := by
  obtain ⟨stp, h1, h2, -, h4, h5, -⟩ :=
    from_raw_parse [("event", JVal.jstr " Click "), ("extra", JVal.jnum 5)] 3
      "click" "" rfl rfl
  exact ⟨stp, h1, h2, h4, h5⟩

/-- Peeling one numbered line off the front of a file. -/
theorem numberedFrom_cons (n : Nat) (line : String) (lines : List String) :
    numberedFrom n (line :: lines) = (n, line) :: numberedFrom (n + 1) lines := by
  unfold numberedFrom
  rw [List.length_cons, List.range'_succ]
  rfl

/-- One step of `readLines` (definitional at a cons). -/
theorem readLines_cons (jl : String → Option PyJson) (line : String)
    (rest : List String) (n : Nat) :
    readLines jl (line :: rest) n =
      (if pyStrip line = "" then readLines jl rest (n + 1)
       else
         match jl (pyStrip line) with
         | none => .error (.invalidJson n)
         | some (.other _) => .error (.nonObject n)
         | some (.obj raw) =>
           match from_raw raw n with
           | none => .error (.attrError n)
           | some stp => (readLines jl rest (n + 1)).map (stp :: ·)) := rfl

/-- When every numbered line parses (or is blank), `readLines` succeeds
and returns exactly the parses of the non-blank lines in file order. -/
theorem readLines_ok (jl : String → Option PyJson) :
    ∀ (lines : List String) (n : Nat),
      (∀ p ∈ numberedFrom n lines, lineOk jl p = true) →
      readLines jl lines n =
        .ok ((numberedFrom n lines).filterMap (parseLine jl)) := by
  intro lines
  induction lines with
  | nil => intro n _; rfl
  | cons line rest ih =>
    intro n h
    have hline := h (n, line)
      (by rw [numberedFrom_cons]; exact List.mem_cons_self _ _)
    have hsub : ∀ p ∈ numberedFrom (n + 1) rest, lineOk jl p = true :=
      fun p hp =>
        h p (by rw [numberedFrom_cons]; exact List.mem_cons_of_mem _ hp)
    rw [numberedFrom_cons, List.filterMap_cons, readLines_cons]
    by_cases hb : pyStrip line = ""
    · have hparse : parseLine jl (n, line) = none := by
        unfold parseLine
        rw [if_pos hb]
      rw [if_pos hb, hparse]
      exact ih (n + 1) hsub
    · unfold lineOk at hline
      rw [if_neg hb] at hline
      rw [if_neg hb]
      rcases hj : jl (pyStrip line) with _ | pj
      · simp [hj] at hline
      · rcases pj with raw | v
        · simp only [hj] at hline
          rcases hf : from_raw raw n with _ | stp
          · rw [hf] at hline
            simp at hline
          · have hparse : parseLine jl (n, line) = some stp := by
              unfold parseLine
              rw [if_neg hb, hj]
              exact hf
            dsimp only
            rw [hf, hparse]
            dsimp only
            rw [ih (n + 1) hsub]
            rfl
        · simp [hj] at hline

/-- When an earlier segment of the file is clean and a later line is
malformed (undecodable, or decodable but not an object), `readLines`
raises the corresponding error carrying that line's number. -/
theorem readLines_error (jl : String → Option PyJson) (line : String)
    (mk : Nat → ReadError) (hb : pyStrip line ≠ "")
    (hcase : (jl (pyStrip line) = none ∧ mk = ReadError.invalidJson) ∨
      (∃ v, jl (pyStrip line) = some (.other v) ∧
        mk = ReadError.nonObject)) :
    ∀ (pre : List String) (n : Nat) (rest : List String),
      (∀ p ∈ numberedFrom n pre, lineOk jl p = true) →
      readLines jl (pre ++ line :: rest) n =
        .error (mk (n + pre.length)) := by
  intro pre
  induction pre with
  | nil =>
    intro n rest _
    rw [List.nil_append, readLines_cons, if_neg hb]
    rcases hcase with ⟨hj, hmk⟩ | ⟨v, hj, hmk⟩ <;> rw [hj, hmk] <;> rfl
  | cons p0 pre2 ih =>
    intro n rest h
    have hline := h (n, p0)
      (by rw [numberedFrom_cons]; exact List.mem_cons_self _ _)
    have hsub : ∀ p ∈ numberedFrom (n + 1) pre2, lineOk jl p = true :=
      fun p hp =>
        h p (by rw [numberedFrom_cons]; exact List.mem_cons_of_mem _ hp)
    have harith : n + 1 + pre2.length = n + (p0 :: pre2).length := by
      rw [List.length_cons]
      omega
    rw [List.cons_append, readLines_cons]
    by_cases hb0 : pyStrip p0 = ""
    · rw [if_pos hb0, ih (n + 1) rest hsub, harith]
    · unfold lineOk at hline
      rw [if_neg hb0] at hline
      rw [if_neg hb0]
      rcases hj : jl (pyStrip p0) with _ | pj
      · simp [hj] at hline
      · rcases pj with raw | v
        · simp only [hj] at hline
          rcases hf : from_raw raw n with _ | stp
          · rw [hf] at hline
            simp at hline
          · dsimp only
            rw [hf]
            dsimp only
            rw [ih (n + 1) rest hsub, harith]
            rfl
        · simp [hj] at hline

/-- C8: `read_interaction_log` raises a not-found error on a missing
file; on a clean file it returns, in exact file line order, the parsed
steps of the non-blank lines (blank lines contribute nothing, and each
step carries its true 1-based file line number); and a line with invalid
JSON syntax, or with a non-object payload, raises a malformed-record
error naming that line's number. -/
theorem read_log_order_and_errors (jl : String → Option PyJson) :
    read_interaction_log jl none = .error .notFound ∧
    (∀ lines, (∀ p ∈ numberedLines lines, lineOk jl p = true) →
      read_interaction_log jl (some lines) =
        .ok ((numberedLines lines).filterMap (parseLine jl))) ∧
    (∀ pre line rest, (∀ p ∈ numberedLines pre, lineOk jl p = true) →
      pyStrip line ≠ "" → jl (pyStrip line) = none →
      read_interaction_log jl (some (pre ++ line :: rest)) =
        .error (.invalidJson (1 + pre.length))) ∧
    (∀ pre line rest v, (∀ p ∈ numberedLines pre, lineOk jl p = true) →
      pyStrip line ≠ "" → jl (pyStrip line) = some (.other v) →
      read_interaction_log jl (some (pre ++ line :: rest)) =
        .error (.nonObject (1 + pre.length))) := by
  refine ⟨rfl, ?_, ?_, ?_⟩
  · intro lines h
    exact readLines_ok jl lines 1 h
  · intro pre line rest h hb hj
    exact readLines_error jl line ReadError.invalidJson hb
      (Or.inl ⟨hj, rfl⟩) pre 1 rest h
  · intro pre line rest v h hb hj
    exact readLines_error jl line ReadError.nonObject hb
      (Or.inr ⟨v, hj, rfl⟩) pre 1 rest h

/-- C8 witness: a missing file; a file with a blank first line whose only
record lands on line 2 (the blank line consumes no output position but
the step keeps its true line number); an invalid-JSON line reported as
line 2; and a non-object line reported as line 1. -/
theorem read_log_order_and_errors_witness :
    read_interaction_log jl0 none = .error .notFound ∧
    read_interaction_log jl0 (some ["", "{}"]) =
      .ok ((numberedLines ["", "{}"]).filterMap (parseLine jl0)) ∧
    (numberedLines ["", "{}"]).filterMap (parseLine jl0) =
      [⟨2, .jnull, .jnull, .jnull, .jnull, "", "", .jnull, .jnull, .jnull,
        .jnull, .jnull, .jnull, .jnull, .jnull, .jnull, .jnull, .jnull, []⟩] ∧
    read_interaction_log jl0 (some ["{}", "bad"]) =
      .error (.invalidJson 2) ∧
    read_interaction_log jl0 (some ["1"]) = .error (.nonObject 1) :=
  ⟨(read_log_order_and_errors jl0).1,
   (read_log_order_and_errors jl0).2.1 ["", "{}"] (by decide),
   by decide,
   (read_log_order_and_errors jl0).2.2.1 ["{}"] "bad" [] (by decide)
     (by decide) rfl,
   (read_log_order_and_errors jl0).2.2.2 [] "1" [] (.jnum 1) (by decide)
     (by decide) rfl⟩

end Replay
